import Mathlib

set_option maxRecDepth 10000

/-!
Verification development for the Stat_app backend (FastAPI statistical
analysis service).  The definitions below are a shallow embedding of the
Python source files `backend/app.py`, `backend/services/test_runner.py`,
`backend/services/regression_runner.py`, `backend/routes/statistical_tests.py`,
`backend/routes/regression.py`, and the checkpoint revision
`backend/.ipynb_checkpoints/app-checkpoint.py`.

Modelling conventions:
* pandas cell values are `Option Val` (`none` is a missing value, i.e. NaN
  in an object column); `Val` is either an exact rational number or a string.
* a pandas Series is its list of cells together with the storage-dtype flag
  `pd.api.types.is_numeric_dtype`.
* `series.sample(min(100, len(series)))` is modelled as the full list of
  values; this is exact whenever the series has at most 100 non-missing
  values (every concrete input used below does), and all counting done on
  the sample is order-insensitive.
* floating point arithmetic on actual data is modelled with exact rationals;
  NaN and infinity propagation, where a claim depends on it, is modelled
  with an explicit `F` type.  Calls into scipy, statsmodels and sklearn are
  modelled as oracle parameters; everything computed in the repository's own
  code is embedded concretely.
-/

/-- A non-missing pandas cell value: an (exact) number or a string. -/
inductive Val where
  | num (q : ℚ)
  | str (s : String)
deriving DecidableEq, Repr

/-- A pandas cell: `none` is a missing value (NaN or None). -/
abbrev Cell := Option Val

/-- A pandas Series: the storage-dtype flag `pd.api.types.is_numeric_dtype`
plus the list of cells. -/
structure Series where
  dtypeNumeric : Bool
  cells : List Cell
deriving DecidableEq, Repr

/-- `series.dropna()`: the list of non-missing values, in order. -/
def dropna (s : List Cell) : List Val := s.filterMap id

/-- `series.isna().sum()`: the number of missing cells. -/
def isnaCount (s : List Cell) : ℕ := (s.filter fun c => c.isNone).length

/-- `series.nunique()`: the number of distinct non-missing values
(pandas excludes NaN by default). -/
def nuniqueCells (s : List Cell) : ℕ := (dropna s).dedup.length

/-- Accumulator form of first-appearance deduplication (structural
recursion, so that concrete instances evaluate in the kernel). -/
def pdUniqueAux {α : Type} [DecidableEq α] (seen : List α) : List α → List α
  | [] => []
  | a :: l => if a ∈ seen then pdUniqueAux seen l else a :: pdUniqueAux (a :: seen) l

/-- `pd.Series.unique()`: distinct values in order of first appearance. -/
def pdUnique {α : Type} [DecidableEq α] (l : List α) : List α := pdUniqueAux [] l

/-- Python's `str.strip()`: remove leading and trailing whitespace. -/
def stripChars (cs : List Char) : List Char :=
  ((cs.dropWhile Char.isWhitespace).reverse.dropWhile Char.isWhitespace).reverse

/-- Split a character list into its longest prefix satisfying `p` and the
rest (used to model the greedy regex pieces for digit, whitespace and
word-character runs). -/
def splitWhile (p : Char → Bool) : List Char → List Char × List Char
  | [] => ([], [])
  | c :: rest =>
    if p c then
      let r := splitWhile p rest
      (c :: r.1, r.2)
    else ([], c :: rest)

/-- The numeric value of a list of decimal digit characters. -/
def natOfDigits (cs : List Char) : ℕ := cs.foldl (fun n c => 10 * n + (c.toNat - 48)) 0

/-- Parser for an unsigned Python float literal `digits [. digits]`
(".5" and "5." are also legal Python floats). -/
def parseUnsigned (cs : List Char) : Option ℚ :=
  let ip := splitWhile Char.isDigit cs
  match ip.2 with
  | [] => if ip.1 = [] then none else some (natOfDigits ip.1)
  | c :: r2 =>
    if c = '.' then
      let fp := splitWhile Char.isDigit r2
      if fp.2 = [] ∧ (ip.1 ≠ [] ∨ fp.1 ≠ []) then
        some ((natOfDigits ip.1 : ℚ) + (natOfDigits fp.1 : ℚ) / (10 : ℚ) ^ fp.1.length)
      else none
    else none

/-- `float(s)` / `pd.to_numeric(s, errors='coerce')` on a string: best-effort
parse of a decimal literal with optional sign and surrounding whitespace
(exponent forms are not needed by any input below). -/
def parseFloatQ (s : String) : Option ℚ :=
  match stripChars s.toList with
  | '+' :: rest => parseUnsigned rest
  | '-' :: rest => (parseUnsigned rest).map (fun q => -q)
  | cs => parseUnsigned cs

/-- `pd.to_numeric(v, errors='coerce')` on a single cell value. -/
def pdToNumericVal (v : Val) : Option ℚ :=
  match v with
  | .num q => some q
  | .str s => parseFloatQ s

/-- `str(v)` as applied by `.astype(str)` and `str(val)`.  (The repository
only ever applies this where the claims below use string cells, so the
exact numeric rendering is irrelevant.) -/
def valToStr (v : Val) : String :=
  match v with
  | .str s => s
  | .num q => toString q

/-- The separator character class (dash or slash) of the date regexes. -/
def isSepChar (c : Char) : Bool := c == '-' || c == '/'

/-- The word-character class `\w` of the date regexes. -/
def isWordChar (c : Char) : Bool := c.isAlphanum || c == '_'

/-- regex 1 of `is_date_type`: four digits, separator, one or two digits,
separator, at least one digit; prefix match as `re.match` (pattern
`YYYY-MM-DD` with dash or slash separators). -/
def matchP1 (cs : List Char) : Bool :=
  let d1 := splitWhile Char.isDigit cs
  if d1.1.length = 4 then
    match d1.2 with
    | c :: r2 =>
      if isSepChar c then
        let d2 := splitWhile Char.isDigit r2
        if d2.1.length = 1 ∨ d2.1.length = 2 then
          match d2.2 with
          | c2 :: r4 => isSepChar c2 && decide ((splitWhile Char.isDigit r4).1.length ≥ 1)
          | [] => false
        else false
      else false
    | [] => false
  else false

/-- regexes 2 and 3 of `is_date_type`: one or two digits, separator, one or
two digits, separator, then at least `k` digits (`k = 4` for the
`DD-MM-YYYY` pattern, `k = 2` for the `DD-MM-YY` pattern); prefix match. -/
def matchP23 (k : ℕ) (cs : List Char) : Bool :=
  let d1 := splitWhile Char.isDigit cs
  if d1.1.length = 1 ∨ d1.1.length = 2 then
    match d1.2 with
    | c :: r2 =>
      if isSepChar c then
        let d2 := splitWhile Char.isDigit r2
        if d2.1.length = 1 ∨ d2.1.length = 2 then
          match d2.2 with
          | c2 :: r4 => isSepChar c2 && decide ((splitWhile Char.isDigit r4).1.length ≥ k)
          | [] => false
        else false
      else false
    | [] => false
  else false

/-- regex 4 of `is_date_type`: exactly eight digits and end of string
(pattern `YYYYMMDD`, the only anchored pattern in the list). -/
def matchP4 (cs : List Char) : Bool :=
  cs.all Char.isDigit && decide (cs.length = 8)

/-- regex 5 of `is_date_type` (pattern `Mon DD, YYYY`): exactly three word
characters (a fourth would sit where the mandatory whitespace must match),
whitespace, one or two digits, an optional comma, whitespace, at least four
digits; prefix match. -/
def matchP5 (cs : List Char) : Bool :=
  let w := splitWhile isWordChar cs
  if w.1.length = 3 then
    let sp := splitWhile Char.isWhitespace w.2
    if sp.1.length ≥ 1 then
      let d := splitWhile Char.isDigit sp.2
      if d.1.length = 1 ∨ d.1.length = 2 then
        let afterComma :=
          match d.2 with
          | c :: r => if c = ',' then r else d.2
          | [] => d.2
        let sp2 := splitWhile Char.isWhitespace afterComma
        decide (sp2.1.length ≥ 1) && decide ((splitWhile Char.isDigit sp2.2).1.length ≥ 4)
      else false
    else false
  else false

/-- regex 6 of `is_date_type` (pattern `DD Mon YYYY`): one or two digits,
whitespace, exactly three word characters, whitespace, at least four
digits; prefix match. -/
def matchP6 (cs : List Char) : Bool :=
  let d := splitWhile Char.isDigit cs
  if d.1.length = 1 ∨ d.1.length = 2 then
    let sp := splitWhile Char.isWhitespace d.2
    if sp.1.length ≥ 1 then
      let w := splitWhile isWordChar sp.2
      if w.1.length = 3 then
        let sp2 := splitWhile Char.isWhitespace w.2
        decide (sp2.1.length ≥ 1) && decide ((splitWhile Char.isDigit sp2.2).1.length ≥ 4)
      else false
    else false
  else false

/-- The body of the pattern loop of `is_date_type` (current revision of
`app.py`): does `value.strip()` match any of the six date regexes? -/
def matchesAnyDatePattern (s : String) : Bool :=
  let cs := stripChars s.toList
  matchP1 cs || matchP23 4 cs || matchP23 2 cs || matchP4 cs || matchP5 cs || matchP6 cs

/-- `is_date_type` of the current revision of `app.py` (regex based):
false for an all-missing column, false for a numeric-dtype column, else
true iff more than 80% of the (sampled) stringified values match a date
pattern. -/
def is_date_type (s : Series) : Bool :=
  let nn := dropna s.cells
  if nn.length = 0 then false
  else if s.dtypeNumeric then false
  else
    let sample := nn.map valToStr
    let nMatch := (sample.filter matchesAnyDatePattern).length
    decide ((nMatch : ℚ) / (sample.length : ℚ) > 4 / 5)

/-- `is_numeric_type` of `app.py` (identical in both revisions): false for
an all-missing column; true for numeric dtype; else true iff more than 90%
of the (sampled) values coerce to numbers. -/
def is_numeric_type (s : Series) : Bool :=
  let nn := dropna s.cells
  if nn.length = 0 then false
  else if s.dtypeNumeric then true
  else
    let conv := (nn.filterMap pdToNumericVal).length
    decide ((conv : ℚ) / (nn.length : ℚ) > 9 / 10)

/-- `is_categorical_type` of `app.py` (identical in both revisions):
`series.nunique() < min(total_rows * 0.5, 20)`. -/
def is_categorical_type (s : Series) (totalRows : ℕ) : Bool :=
  decide ((nuniqueCells s.cells : ℚ) < min ((totalRows : ℚ) / 2) 20)

/-- The four variable types of the detector. -/
inductive VarType where
  | date | numeric | categorical | text
deriving DecidableEq, Repr

/-- `detect_variable_type` of the current revision of `app.py`:
date, then categorical, then numeric, then text. -/
def detect_variable_type (s : Series) (totalRows : ℕ) : VarType :=
  if is_date_type s then .date
  else if is_categorical_type s totalRows then .categorical
  else if is_numeric_type s then .numeric
  else .text

/-- `is_date_type` of the checkpoint revision
(`.ipynb_checkpoints/app-checkpoint.py`): no numeric-dtype skip; true iff
more than 90% of the (sampled) values parse with `pd.to_datetime`.  The
`pd.to_datetime` success predicate is the oracle parameter `parseDate`. -/
def is_date_type_ckpt (parseDate : Val → Bool) (s : Series) : Bool :=
  let nn := dropna s.cells
  if nn.length = 0 then false
  else
    let ok := (nn.filter parseDate).length
    decide ((ok : ℚ) / (nn.length : ℚ) > 9 / 10)

/-- `detect_variable_type` of the checkpoint revision:
date, then numeric, then categorical, then text. -/
def detect_variable_type_ckpt (parseDate : Val → Bool) (s : Series) (totalRows : ℕ) :
    VarType :=
  if is_date_type_ckpt parseDate s then .date
  else if is_numeric_type s then .numeric
  else if is_categorical_type s totalRows then .categorical
  else .text

/-- Integer-arithmetic form of `is_date_type` (evaluation helper). -/
def is_date_typeN (s : Series) : Bool :=
  let nn := dropna s.cells
  decide (nn.length ≠ 0) && !s.dtypeNumeric &&
    decide (4 * nn.length < ((nn.map valToStr).filter matchesAnyDatePattern).length * 5)

/-- Integer-arithmetic form of `is_numeric_type` (evaluation helper). -/
def is_numeric_typeN (s : Series) : Bool :=
  let nn := dropna s.cells
  decide (nn.length ≠ 0) &&
    (s.dtypeNumeric || decide (9 * nn.length < (nn.filterMap pdToNumericVal).length * 10))

/-- Integer-arithmetic form of `is_categorical_type` (evaluation helper). -/
def is_categorical_typeN (s : Series) (totalRows : ℕ) : Bool :=
  decide (nuniqueCells s.cells * 2 < totalRows) && decide (nuniqueCells s.cells < 20)

/-- Integer-arithmetic form of `is_date_type_ckpt` (evaluation helper). -/
def is_date_type_ckptN (parseDate : Val → Bool) (s : Series) : Bool :=
  let nn := dropna s.cells
  decide (nn.length ≠ 0) && decide (9 * nn.length < (nn.filter parseDate).length * 10)

/-- A numeric-dtype column with exactly 20 distinct values (0,…,19) in a
40-row table (each value twice). -/
def c3col20 : Series :=
  ⟨true, (List.range 40).map (fun i => some (Val.num ((i % 20 : ℕ) : ℚ)))⟩

/-- A numeric-dtype column with 3 distinct values in a 3-row table. -/
def c3col3 : Series := ⟨true, [some (Val.num 0), some (Val.num 1), some (Val.num 2)]⟩

/-- The witness column for the detector-revision comparison: an
object-dtype column of the decimal strings "1.5" / "2.5" / "3.5"
(3 distinct values) in an 8-row table. -/
def c8col : Series :=
  ⟨false,
    [some (Val.str "1.5"), some (Val.str "2.5"), some (Val.str "3.5"),
     some (Val.str "1.5"), some (Val.str "2.5"), some (Val.str "3.5"),
     some (Val.str "1.5"), some (Val.str "2.5")]⟩

/-- An IEEE-style float value: NaN, the two infinities, or a finite value
(modelled exactly, ignoring rounding). -/
inductive F where
  | nan | inf | ninf | fin (q : ℚ)
deriving DecidableEq, Repr

/-- `safe_float` of `app.py`: NaN and the infinities become `None` (JSON
null), finite values pass through. -/
def safe_float_app (v : F) : Option ℚ :=
  match v with
  | .fin q => some q
  | _ => none

/-- Python `round(x, 2)`.  (Python rounds halves to even on the binary
value; modelled as ordinary rounding — no input below hits a tie.) -/
def round2 (q : ℚ) : ℚ := ((round (q * 100) : ℤ) : ℚ) / 100

/-- Stable insertion into a sorted list (`le a b` = "a may precede b"). -/
def insertSorted {α : Type} (le : α → α → Bool) (a : α) : List α → List α
  | [] => [a]
  | b :: l => if le a b then a :: b :: l else b :: insertSorted le a l

/-- Stable insertion sort, used to model sorted order in pandas and numpy. -/
def insertionSort {α : Type} (le : α → α → Bool) : List α → List α
  | [] => []
  | a :: l => insertSorted le a (insertionSort le l)

/-- Ascending sort of rationals. -/
def sortQ (l : List ℚ) : List ℚ := insertionSort (fun a b => decide (a ≤ b)) l

/-- `Series.quantile(q)` with pandas' default linear interpolation:
position `q * (n - 1)` between the sorted values. -/
def quantileQ (xs : List ℚ) (q : ℚ) : ℚ :=
  let sorted := sortQ xs
  let n := sorted.length
  if n = 0 then 0
  else
    let pos : ℚ := q * ((n : ℚ) - 1)
    let lo : ℕ := (⌊pos⌋).toNat
    let frac : ℚ := pos - (lo : ℚ)
    let xlo := sorted.getD lo 0
    let xhi := sorted.getD (lo + 1) xlo
    xlo + frac * (xhi - xlo)

/-- `Series.mean()` (exact). -/
def meanQ (l : List ℚ) : ℚ := l.sum / (l.length : ℚ)

/-- Minimum of a list with a default for the empty list. -/
def listMinD {α : Type} [LinearOrder α] (l : List α) (d : α) : α :=
  match l with
  | [] => d
  | a :: r => r.foldl min a

/-- Maximum of a list with a default for the empty list. -/
def listMaxD {α : Type} [LinearOrder α] (l : List α) (d : α) : α :=
  match l with
  | [] => d
  | a :: r => r.foldl max a

/-- Oracle bundle for the scipy calls made by `compute_numeric_summary`
(`Series.std`, `scipy.stats.kurtosis`, `scipy.stats.skew`,
`scipy.stats.shapiro`, `scipy.stats.jarque_bera`) and for the random
5000-element subsample taken for large columns.  `none` from a test oracle
models the call raising. -/
structure StatsOracle where
  std : List ℚ → F
  kurtosis : List ℚ → F
  skew : List ℚ → F
  shapiro : List ℚ → Option (F × F)
  jarqueBera : List ℚ → Option (F × F)
  subsample5000 : List ℚ → List ℚ

/-- A concrete oracle instantiation for witnesses (the values are
irrelevant to every theorem that uses it). -/
def oracle0 : StatsOracle :=
  ⟨fun _ => .nan, fun _ => .nan, fun _ => .nan, fun _ => none, fun _ => none, fun l => l⟩

/-- Result shape of `compute_numeric_summary` (`vmin`/`vmax` are the JSON
keys "min"/"max"). -/
structure NumericSummary where
  mean : Option ℚ
  sd : Option ℚ
  median : Option ℚ
  q1 : Option ℚ
  q3 : Option ℚ
  vmin : Option ℚ
  vmax : Option ℚ
  missing_count : ℕ
  missing_percent : ℚ
  kurtosis : Option ℚ
  skewness : Option ℚ
  shapiro_stat : Option ℚ
  shapiro_p : Option ℚ
  jb_stat : Option ℚ
  jb_p : Option ℚ
deriving DecidableEq, Repr

/-- The all-null numeric summary returned by the two guard branches of
`compute_numeric_summary`. -/
def nullNumericSummary (mc : ℕ) (mp : ℚ) : NumericSummary :=
  { mean := none, sd := none, median := none, q1 := none, q3 := none,
    vmin := none, vmax := none, missing_count := mc, missing_percent := mp,
    kurtosis := none, skewness := none, shapiro_stat := none, shapiro_p := none,
    jb_stat := none, jb_p := none }

/-- The numeric value of a cell of a numeric-dtype series. -/
def numOfVal : Val → Option ℚ
  | .num q => some q
  | .str _ => none

/-- The working values of `compute_numeric_summary`: the non-missing values
as numbers, coerced with `pd.to_numeric(errors='coerce').dropna()` when the
series is not of numeric dtype. -/
def coercedVals (s : Series) : List ℚ :=
  if s.dtypeNumeric then (dropna s.cells).filterMap numOfVal
  else (dropna s.cells).filterMap pdToNumericVal

/-- `round(series.isna().sum() / len(series) * 100, 2)`. -/
def missingPercent (s : List Cell) : ℚ :=
  round2 ((isnaCount s : ℚ) / (s.length : ℚ) * 100)

/-- `compute_numeric_summary` of `app.py`: all-missing guard (reports
100.0), coercion-failure guard (reports the actual missing percent), then
the full statistics with scipy calls via the oracle. -/
def compute_numeric_summary (o : StatsOracle) (s : Series) : NumericSummary :=
  if (dropna s.cells).length = 0 then
    nullNumericSummary (isnaCount s.cells) 100
  else
    let vals := coercedVals s
    if vals.length = 0 then
      nullNumericSummary (isnaCount s.cells) (missingPercent s.cells)
    else
      let n := vals.length
      let shapiroPair : Option ℚ × Option ℚ :=
        if 3 ≤ n ∧ n ≤ 5000 then
          match o.shapiro vals with
          | some (st, p) => (safe_float_app st, safe_float_app p)
          | none => (none, none)
        else if n > 5000 then
          match o.shapiro (o.subsample5000 vals) with
          | some (st, p) => (safe_float_app st, safe_float_app p)
          | none => (none, none)
        else (none, none)
      let jbPair : Option ℚ × Option ℚ :=
        match o.jarqueBera vals with
        | some (st, p) => (safe_float_app st, safe_float_app p)
        | none => (none, none)
      { mean := some (meanQ vals)
        sd := safe_float_app (o.std vals)
        median := some (quantileQ vals (1/2))
        q1 := some (quantileQ vals (1/4))
        q3 := some (quantileQ vals (3/4))
        vmin := some (listMinD vals 0)
        vmax := some (listMaxD vals 0)
        missing_count := isnaCount s.cells
        missing_percent := missingPercent s.cells
        kurtosis := safe_float_app (o.kurtosis vals)
        skewness := safe_float_app (o.skew vals)
        shapiro_stat := shapiroPair.1
        shapiro_p := shapiroPair.2
        jb_stat := jbPair.1
        jb_p := jbPair.2 }

/-- One row of a categorical frequency table. -/
structure FreqEntry where
  name : String
  count : ℕ
  percentage : ℚ
deriving DecidableEq, Repr

/-- `Series.value_counts()`: (value, count) pairs in descending count
order (stable over first appearance for ties). -/
def value_counts (l : List Val) : List (Val × ℕ) :=
  insertionSort (fun a b => decide (b.2 ≤ a.2))
    ((pdUnique l).map (fun v => (v, (l.filter (fun w => decide (w = v))).length)))

/-- Result shape of `compute_categorical_summary`. -/
structure CatSummary where
  unique_count : ℕ
  missing_count : ℕ
  missing_percent : ℚ
  frequency_table : List FreqEntry
deriving DecidableEq, Repr

/-- `compute_categorical_summary` of `app.py`. -/
def compute_categorical_summary (s : Series) : CatSummary :=
  let mc := isnaCount s.cells
  let nn := dropna s.cells
  let totalNonMissing := s.cells.length - mc
  { unique_count := nuniqueCells s.cells
    missing_count := mc
    missing_percent := missingPercent s.cells
    frequency_table := (value_counts nn).map (fun p =>
      ⟨valToStr p.1, p.2,
        round2 (if 0 < totalNonMissing then (p.2 : ℚ) / (totalNonMissing : ℚ) * 100 else 0)⟩) }

/-- Result shape of `compute_date_summary`: min/max date strings and the
raw parsed dates as day-level ISO strings (no frequency table — the
function returns raw dates "for frontend processing"). -/
structure DateSummary where
  min_date : Option String
  max_date : Option String
  missing_count : ℕ
  missing_percent : ℚ
  raw_dates : List String
deriving DecidableEq, Repr

/-- `compute_date_summary` of `app.py`.  `parse` is the
`pd.to_datetime(errors='coerce')` oracle (a parsed datetime is an integer
in chronological order), `iso` renders `d.date().isoformat()` (also used
for `str(dates.min().date())`).  Values failing to parse are dropped; the
function takes no rounding argument. -/
def compute_date_summary (parse : Val → Option ℤ) (iso : ℤ → String) (s : Series) :
    DateSummary :=
  let mc := isnaCount s.cells
  let mp := missingPercent s.cells
  let nn := dropna s.cells
  if nn.length = 0 then ⟨none, none, mc, mp, []⟩
  else
    let dates := nn.filterMap parse
    if dates.length = 0 then ⟨none, none, mc, mp, []⟩
    else
      ⟨some (iso (listMinD dates 0)), some (iso (listMaxD dates 0)), mc, mp,
        dates.map iso⟩

/-- Result shape of `compute_text_summary`: every raw non-missing value
(no sampling — the comment in the source says "returns raw values for
frontend sampling"). -/
structure TextSummary where
  missing_count : ℕ
  missing_percent : ℚ
  raw_values : List String
deriving DecidableEq, Repr

/-- `compute_text_summary` of `app.py`. -/
def compute_text_summary (s : Series) : TextSummary :=
  let mc := isnaCount s.cells
  let mp := missingPercent s.cells
  let nn := dropna s.cells
  if nn.length = 0 then ⟨mc, mp, []⟩
  else ⟨mc, mp, nn.map valToStr⟩

/-- One entry of the `variables` list of a summary-statistics request:
`name` and `currentType` fields. -/
structure VarSel where
  name : String
  currentType : String
deriving DecidableEq, Repr

/-- A per-variable summary, tagged with its type (the endpoint adds a
`type` discriminator field to the returned dict). -/
inductive Summary where
  | num (s : NumericSummary)
  | cat (s : CatSummary)
  | date (s : DateSummary)
  | text (s : TextSummary)
deriving DecidableEq, Repr

/-- A stored dataframe: named columns (as pandas Series). -/
abbrev DFrame := List (String × Series)

/-- `df[name]` lookup / `name in df.columns` membership. -/
def lookupCol (df : DFrame) (name : String) : Option Series :=
  (df.find? (fun p => decide (p.1 = name))).map Prod.snd

/-- The per-type dispatch shared by both summary endpoints; `none` models
the unknown-type branch. -/
def dispatchSummary (o : StatsOracle) (parse : Val → Option ℤ) (iso : ℤ → String)
    (series : Series) (varType : String) : Option Summary :=
  if varType = "numeric" then some (.num (compute_numeric_summary o series))
  else if varType = "categorical" then some (.cat (compute_categorical_summary series))
  else if varType = "date" then some (.date (compute_date_summary parse iso series))
  else if varType = "text" then some (.text (compute_text_summary series))
  else none

/-- One entry of the process-wide `uploaded_files` store. -/
structure FileEntry where
  dataframe : DFrame
  filename : String
  rows : ℕ
  columns : List String
deriving DecidableEq, Repr

/-- The process-wide `uploaded_files` mapping. -/
abbrev Store := List (String × FileEntry)

/-- `uploaded_files[file_id]` lookup (`none` iff `file_id not in
uploaded_files`). -/
def lookupStore (st : Store) (fid : String) : Option FileEntry :=
  (st.find? (fun p => decide (p.1 = fid))).map Prod.snd

/-- An HTTP outcome: a 200 payload or an `HTTPException(status, detail)`. -/
inductive HttpResult (α : Type) where
  | ok (a : α)
  | err (status : ℕ) (detail : String)
deriving DecidableEq, Repr

/-- Body of a `/api/summary-statistics/file_id` request.  The handler reads
`dateRounding` (default empty dict) and `textSeed` (default 42) from the
body but never passes either to any summary function. -/
structure SummaryStatsRequest where
  vars : List VarSel
  dateRounding : List (String × String)
  textSeed : ℤ
deriving DecidableEq, Repr

/-- Response of the summary-statistics endpoint. -/
structure SummaryStatsResp where
  file_id : String
  summaries : List (String × Summary)
deriving DecidableEq, Repr

/-- The per-variable loop of `get_summary_statistics`: unknown variable
names and unknown types are skipped (logged and `continue`d). -/
def summariesFor (o : StatsOracle) (parse : Val → Option ℤ) (iso : ℤ → String)
    (df : DFrame) (selections : List VarSel) : List (String × Summary) :=
  selections.foldl (fun acc v =>
    match lookupCol df v.name with
    | none => acc
    | some series =>
      match dispatchSummary o parse iso series v.currentType with
      | none => acc
      | some summ => acc ++ [(v.name, summ)]) []

/-- Handler `get_summary_statistics` of `app.py` (store-passing form: the
returned store is the store after the request).  The request's
`dateRounding` and `textSeed` fields are dead. -/
def get_summary_statistics (o : StatsOracle) (parse : Val → Option ℤ) (iso : ℤ → String)
    (store : Store) (fid : String) (req : SummaryStatsRequest) :
    Store × HttpResult SummaryStatsResp :=
  match lookupStore store fid with
  | none => (store, .err 404 "File not found")
  | some entry =>
    if req.vars = [] then (store, .err 400 "No variables specified")
    else (store, .ok ⟨fid, summariesFor o parse iso entry.dataframe req.vars⟩)

/-- Response of the single-variable summary endpoint. -/
structure SingleSummaryResp where
  file_id : String
  variable_name : String
  summary : Summary
deriving DecidableEq, Repr

/-- Handler `get_single_variable_summary` of `app.py` (store-passing
form). -/
def get_single_variable_summary (o : StatsOracle) (parse : Val → Option ℤ)
    (iso : ℤ → String) (store : Store) (fid : String) (varname : String)
    (varType : Option String) : Store × HttpResult SingleSummaryResp :=
  match lookupStore store fid with
  | none => (store, .err 404 "File not found")
  | some entry =>
    match lookupCol entry.dataframe varname with
    | none => (store, .err 404 "Variable not found")
    | some series =>
      match varType with
      | none => (store, .err 400 "Variable type (varType) is required")
      | some vt =>
        if vt = "" then (store, .err 400 "Variable type (varType) is required")
        else
          match dispatchSummary o parse iso series vt with
          | none => (store, .err 400 ("Unknown variable type: " ++ vt))
          | some summ => (store, .ok ⟨fid, varname, summ⟩)

/-- Witness date column: two parseable ISO dates in different months plus
one unparseable string. -/
def c4dcol : Series :=
  ⟨false, [some (Val.str "2024-01-15"), some (Val.str "2024-03-20"),
           some (Val.str "notadate")]⟩

/-- Witness dataframe and store holding the date column. -/
def c4store : Store := [("f1", ⟨[("d", c4dcol)], "data.csv", 3, ["d"]⟩)]

/-- Concrete `pd.to_datetime` oracle for the witness dates (epoch-day
numbers; "notadate" fails to parse). -/
def c4parse : Val → Option ℤ := fun v =>
  match v with
  | .str "2024-01-15" => some 19737
  | .str "2024-03-20" => some 19802
  | _ => none

/-- Concrete ISO rendering for the witness dates. -/
def c4iso : ℤ → String := fun d =>
  if d = 19737 then "2024-01-15" else if d = 19802 then "2024-03-20" else "x"

/-- Witness column whose non-missing values all fail numeric coercion. -/
def c5col : Series :=
  ⟨false, [some (Val.str "a"), some (Val.str "b"), some (Val.str "c")]⟩

/-- IEEE negation. -/
def fNeg : F → F
  | .nan => .nan
  | .inf => .ninf
  | .ninf => .inf
  | .fin q => .fin (-q)

/-- IEEE addition (exact on finite values). -/
def fAdd : F → F → F
  | .nan, _ => .nan
  | _, .nan => .nan
  | .inf, .ninf => .nan
  | .ninf, .inf => .nan
  | .inf, _ => .inf
  | _, .inf => .inf
  | .ninf, _ => .ninf
  | _, .ninf => .ninf
  | .fin a, .fin b => .fin (a + b)

/-- IEEE subtraction. -/
def fSub (a b : F) : F := fAdd a (fNeg b)

/-- IEEE multiplication (exact on finite values; we never need signed
zeros on the paths exercised below). -/
def fMul : F → F → F
  | .nan, _ => .nan
  | _, .nan => .nan
  | .inf, .inf => .inf
  | .inf, .ninf => .ninf
  | .ninf, .inf => .ninf
  | .ninf, .ninf => .inf
  | .inf, .fin q => if q = 0 then .nan else if 0 < q then .inf else .ninf
  | .fin q, .inf => if q = 0 then .nan else if 0 < q then .inf else .ninf
  | .ninf, .fin q => if q = 0 then .nan else if 0 < q then .ninf else .inf
  | .fin q, .ninf => if q = 0 then .nan else if 0 < q then .ninf else .inf
  | .fin a, .fin b => .fin (a * b)

/-- IEEE division: `0/0 = NaN`, `x/0 = ±inf`, `x/inf = 0` (exact on finite
values, unsigned zero). -/
def fDiv : F → F → F
  | .nan, _ => .nan
  | _, .nan => .nan
  | .inf, .inf => .nan
  | .inf, .ninf => .nan
  | .ninf, .inf => .nan
  | .ninf, .ninf => .nan
  | .inf, .fin q => if 0 ≤ q then .inf else .ninf
  | .ninf, .fin q => if 0 ≤ q then .ninf else .inf
  | .fin _, .inf => .fin 0
  | .fin _, .ninf => .fin 0
  | .fin a, .fin b =>
    if b = 0 then (if a = 0 then .nan else if 0 < a then .inf else .ninf)
    else .fin (a / b)

/-- IEEE `<` (false whenever either side is NaN). -/
def fLt : F → F → Bool
  | .nan, _ => false
  | _, .nan => false
  | .inf, _ => false
  | .ninf, .ninf => false
  | .ninf, _ => true
  | .fin _, .inf => true
  | .fin _, .ninf => false
  | .fin a, .fin b => decide (a < b)

/-- Python `min(a, b)`: `b` if `b < a` else `a` (left operand wins when a
NaN makes the comparison false). -/
def fMinPy (a b : F) : F := if fLt b a then b else a

/-- `np.sqrt` lifted to `F`: NaN for NaN and negative inputs, `sq` gives
the numeric value on non-negative finite inputs. -/
def fSqrt (sq : ℚ → ℚ) : F → F
  | .nan => .nan
  | .inf => .inf
  | .ninf => .nan
  | .fin q => if q < 0 then .nan else .fin (sq q)

/-- `safe_float(value, default=0.0)` shared by
`services/test_runner.py` and `services/regression_runner.py`: NaN and the
infinities are replaced by the DEFAULT VALUE (not null). -/
def safe_float_runner (v : F) (dflt : ℚ) : ℚ :=
  match v with
  | .fin q => q
  | _ => dflt

/-- Projection of an `Except` success. -/
def exceptOk {ε α : Type} : Except ε α → Option α
  | .ok a => some a
  | .error _ => none

/-- Projection of an `HttpResult` success. -/
def httpOk {α : Type} : HttpResult α → Option α
  | .ok a => some a
  | .err _ _ => none

/-- The record list passed to the test runners
(`df.to_dict('records')` — dtype information is gone). -/
abbrev TestData := List (String × List Cell)

/-- `load_file_data`'s conversion of a stored dataframe to records. -/
def recordsOf (df : DFrame) : TestData := df.map (fun p => (p.1, p.2.cells))

/-- `df[name]` on record data.  (A missing column raises a KeyError in
Python, surfacing as a 500; modelled as the empty column — no theorem
below uses a missing column.) -/
def colOf (data : TestData) (name : String) : List Cell :=
  ((data.find? (fun p => decide (p.1 = name))).map Prod.snd).getD []

/-- `df[df[cat] == g][num].dropna()`: the non-missing numeric-column cells
of the rows whose categorical cell equals `g` (NaN never equals `g`). -/
def selectWhere (catCells numCells : List Cell) (g : Val) : List Val :=
  (catCells.zip numCells).filterMap (fun p =>
    match p.1 with
    | some gv => if gv = g then p.2 else none
    | none => none)

/-- `pd.to_numeric(·, errors='coerce').dropna().values`. -/
def toNumericList (l : List Val) : List ℚ := l.filterMap pdToNumericVal

/-- Sum of squared deviations from the mean. -/
def ssdQ (l : List ℚ) : ℚ := (l.map (fun x => (x - meanQ l) ^ 2)).sum

/-- The inner `calc_stats` helper of the test runners: n, mean,
sample standard deviation (NaN for n ≤ 1, like numpy with ddof=1), and a
1.96-standard-error confidence interval, all in `F`. -/
structure GroupStats where
  n : ℕ
  mean : F
  std : F
  ci_mean_lower : F
  ci_mean_upper : F
deriving DecidableEq, Repr

/-- `calc_stats(values)` of `run_ttest` / `run_anova` (`sq` is the numeric
square root on non-negative rationals). -/
def calcStats (sq : ℚ → ℚ) (values : List ℚ) : GroupStats :=
  let n := values.length
  let meanF : F := if n = 0 then .nan else .fin (meanQ values)
  let stdF : F :=
    if n = 0 then .nan
    else fSqrt sq (fDiv (.fin (ssdQ values)) (.fin ((n : ℚ) - 1)))
  let se := fDiv stdF (fSqrt sq (.fin (n : ℚ)))
  let ci := fMul (.fin (49 / 25)) se
  ⟨n, meanF, stdF, fSub meanF ci, fAdd meanF ci⟩

/-- Group statistics after `safe_float` (the `safe_group_stats` helper):
every NaN/inf field becomes 0.0. -/
structure SafeGroupStats where
  n : ℕ
  mean : ℚ
  std : ℚ
  ci_mean_lower : ℚ
  ci_mean_upper : ℚ
deriving DecidableEq, Repr

/-- `safe_group_stats` of `run_ttest` (and the safe_float-ed `calc_stats`
of `run_anova`). -/
def safeGroupStats (g : GroupStats) : SafeGroupStats :=
  ⟨g.n, safe_float_runner g.mean 0, safe_float_runner g.std 0,
    safe_float_runner g.ci_mean_lower 0, safe_float_runner g.ci_mean_upper 0⟩

/-- An assumption-check entry (method, p-value, passed at 0.05). -/
structure AssumptionResult where
  method : String
  p_value : ℚ
  passed : Bool
deriving DecidableEq, Repr

/-- The `statistics` object of a t-test response. -/
structure TtestStatistics where
  t_statistic : ℚ
  p_value : ℚ
  df : ℤ
  mean_diff : ℚ
  ci_lower : ℚ
  ci_upper : ℚ
deriving DecidableEq, Repr

/-- A t-test response. -/
structure TtestResult where
  test_name : String
  test_type : String
  statistics : TtestStatistics
  groups : List (String × SafeGroupStats)
  normality : AssumptionResult
  homogeneity : AssumptionResult
  interpretation : String
deriving DecidableEq, Repr

/-- Oracle bundle for the scipy calls of `run_ttest`
(`stats.ttest_ind`, the p-value of `stats.shapiro`, the p-value of
`stats.levene`) plus the numeric square root. -/
structure TtestOracle where
  ttest_ind : List ℚ → List ℚ → F × F
  shapiro_p : List ℚ → F
  levene : List ℚ → List ℚ → F
  sqrtQ : ℚ → ℚ

/-- `run_ttest` of `services/test_runner.py`.  The group-count check
raises a ValueError which the surrounding `except` re-raises as
`Exception("Error in t-test: …")`; modelled as the `Except.error`
branch. -/
def run_ttest (o : TtestOracle) (data : TestData) (numeric_var categorical_var : String) :
    Except String TtestResult :=
  let catCells := colOf data categorical_var
  let groups := pdUnique (dropna catCells)
  if groups.length ≠ 2 then
    .error ("Error in t-test: t-test requires exactly 2 groups, found " ++
      toString groups.length)
  else
    let g0 := groups.getD 0 (Val.num 0)
    let g1 := groups.getD 1 (Val.num 0)
    let numCells := colOf data numeric_var
    let group1_vals := toNumericList (selectWhere catCells numCells g0)
    let group2_vals := toNumericList (selectWhere catCells numCells g1)
    let tp := o.ttest_ind group1_vals group2_vals
    let s1 := calcStats o.sqrtQ group1_vals
    let s2 := calcStats o.sqrtQ group2_vals
    let mean_diff := fSub s1.mean s2.mean
    let pooled_std := fSqrt o.sqrtQ
      (fDiv (fAdd (fMul s1.std s1.std) (fMul s2.std s2.std)) (.fin 2))
    let se_diff := fMul pooled_std (fSqrt o.sqrtQ
      (fAdd (fDiv (.fin 1) (.fin (s1.n : ℚ))) (fDiv (.fin 1) (.fin (s2.n : ℚ)))))
    let ci_diff := fMul (.fin (49 / 25)) se_diff
    let p_norm1 := if group1_vals.length > 2 then o.shapiro_p group1_vals else .fin (1 / 2)
    let p_norm2 := if group2_vals.length > 2 then o.shapiro_p group2_vals else .fin (1 / 2)
    let p_levene := o.levene group1_vals group2_vals
    let df_total : ℤ := (group1_vals.length : ℤ) + (group2_vals.length : ℤ) - 2
    let pmin := fMinPy p_norm1 p_norm2
    .ok
      { test_name := "t-Test (Independent)"
        test_type := "ttest"
        statistics :=
          { t_statistic := safe_float_runner tp.1 0
            p_value := safe_float_runner tp.2 0
            df := df_total
            mean_diff := safe_float_runner mean_diff 0
            ci_lower := safe_float_runner (fSub mean_diff ci_diff) 0
            ci_upper := safe_float_runner (fAdd mean_diff ci_diff) 0 }
        groups := [(valToStr g0, safeGroupStats s1), (valToStr g1, safeGroupStats s2)]
        normality :=
          { method := "Shapiro-Wilk"
            p_value := safe_float_runner pmin 0
            passed := decide (safe_float_runner pmin 0 > 1 / 20) }
        homogeneity :=
          { method := "Levene"
            p_value := safe_float_runner p_levene 0
            passed := decide (safe_float_runner p_levene 0 > 1 / 20) }
        interpretation :=
          if safe_float_runner tp.2 0 < 1 / 20 then
            "Significant difference detected (p < 0.05)"
          else "No significant difference (p ≥ 0.05)" }

/-- The `statistics` object of an ANOVA response. -/
structure AnovaStatistics where
  f_statistic : ℚ
  p_value : ℚ
  df_between : ℤ
  df_within : ℤ
  ss_between : ℚ
  ss_within : ℚ
  ms_between : ℚ
  ms_within : ℚ
deriving DecidableEq, Repr

/-- An ANOVA response. -/
structure AnovaResult where
  test_name : String
  test_type : String
  statistics : AnovaStatistics
  groups : List (String × SafeGroupStats)
  homogeneity : AssumptionResult
  interpretation : String
deriving DecidableEq, Repr

/-- Oracle bundle for `run_anova` (`stats.f_oneway`, the p-value of
`stats.levene` over the group lists) plus the numeric square root. -/
structure AnovaOracle where
  f_oneway : List (List ℚ) → F × F
  levene : List (List ℚ) → F
  sqrtQ : ℚ → ℚ

/-- `run_anova` of `services/test_runner.py`.  (The source indexes
`group_data[i]` with the index of the unfiltered group list; when a group
lost every value to coercion that is an IndexError in Python — modelled
with a default empty list, not exercised by any theorem.) -/
def run_anova (o : AnovaOracle) (data : TestData) (numeric_var categorical_var : String) :
    Except String AnovaResult :=
  let catCells := colOf data categorical_var
  let groups := pdUnique (dropna catCells)
  if groups.length < 2 then
    .error ("Error in ANOVA: ANOVA requires at least 2 groups, found " ++
      toString groups.length)
  else
    let numCells := colOf data numeric_var
    let allGroupVals := groups.map (fun g => toNumericList (selectWhere catCells numCells g))
    let group_data := allGroupVals.filter (fun l => decide (l.length > 0))
    let fp := o.f_oneway group_data
    let all_vals := group_data.flatten
    let grand_mean := meanQ all_vals
    let n_total := all_vals.length
    let ss_between := (group_data.map (fun g => (g.length : ℚ) * (meanQ g - grand_mean) ^ 2)).sum
    let ss_within := (group_data.map ssdQ).sum
    let df_between : ℤ := (groups.length : ℤ) - 1
    let df_within : ℤ := (n_total : ℤ) - (groups.length : ℤ)
    let ms_between := fDiv (.fin ss_between) (.fin (df_between : ℚ))
    let ms_within := fDiv (.fin ss_within) (.fin (df_within : ℚ))
    let groupsStats := (List.range groups.length).map (fun i =>
      (valToStr (groups.getD i (Val.num 0)),
        safeGroupStats (calcStats o.sqrtQ (group_data.getD i []))))
    let p_levene := o.levene group_data
    .ok
      { test_name := "ANOVA (One-way)"
        test_type := "anova"
        statistics :=
          { f_statistic := safe_float_runner fp.1 0
            p_value := safe_float_runner fp.2 0
            df_between := df_between
            df_within := df_within
            ss_between := safe_float_runner (.fin ss_between) 0
            ss_within := safe_float_runner (.fin ss_within) 0
            ms_between := safe_float_runner ms_between 0
            ms_within := safe_float_runner ms_within 0 }
        groups := groupsStats
        homogeneity :=
          { method := "Levene"
            p_value := safe_float_runner p_levene 0
            passed := decide (safe_float_runner p_levene 0 > 1 / 20) }
        interpretation :=
          if safe_float_runner fp.2 0 < 1 / 20 then
            "Significant difference between groups detected (p < 0.05)"
          else "No significant difference between groups (p ≥ 0.05)" }

/-- The `statistics` object of a Mann-Whitney response. -/
structure MWStatistics where
  u_statistic : ℚ
  p_value : ℚ
  effect_size_r : ℚ
deriving DecidableEq, Repr

/-- A per-group entry of a Mann-Whitney response. -/
structure MWGroup where
  n : ℕ
  median : ℚ
deriving DecidableEq, Repr

/-- A Mann-Whitney response. -/
structure MWResult where
  test_name : String
  test_type : String
  statistics : MWStatistics
  groups : List (String × MWGroup)
  interpretation : String
deriving DecidableEq, Repr

/-- Oracle bundle for `run_mann_whitney` (`stats.mannwhitneyu`,
`stats.norm.ppf`) plus the numeric square root. -/
structure MWOracle where
  mannwhitneyu : List ℚ → List ℚ → F × F
  norm_ppf : F → F
  sqrtQ : ℚ → ℚ

/-- `run_mann_whitney` of `services/test_runner.py` (`np.median` is the
0.5 linear-interpolation quantile). -/
def run_mann_whitney (o : MWOracle) (data : TestData)
    (numeric_var categorical_var : String) : Except String MWResult :=
  let catCells := colOf data categorical_var
  let groups := pdUnique (dropna catCells)
  if groups.length ≠ 2 then
    .error ("Error in Mann-Whitney U test: Mann-Whitney U test requires exactly 2 groups, found "
      ++ toString groups.length)
  else
    let g0 := groups.getD 0 (Val.num 0)
    let g1 := groups.getD 1 (Val.num 0)
    let numCells := colOf data numeric_var
    let group1_vals := toNumericList (selectWhere catCells numCells g0)
    let group2_vals := toNumericList (selectWhere catCells numCells g1)
    let up := o.mannwhitneyu group1_vals group2_vals
    let n1 := group1_vals.length
    let n2 := group2_vals.length
    let effect_size_r :=
      if fLt up.2 (.fin 1) && fLt (.fin 0) up.2 then
        let z := o.norm_ppf (fSub (.fin 1) (fDiv up.2 (.fin 2)))
        safe_float_runner (fDiv z (fSqrt o.sqrtQ (.fin ((n1 : ℚ) + (n2 : ℚ))))) 0
      else 0
    .ok
      { test_name := "Wilcoxon Rank Sum (Mann-Whitney U)"
        test_type := "mann_whitney"
        statistics :=
          { u_statistic := safe_float_runner up.1 0
            p_value := safe_float_runner up.2 0
            effect_size_r := effect_size_r }
        groups :=
          [(valToStr g0, ⟨n1, safe_float_runner (.fin (quantileQ group1_vals (1 / 2))) 0⟩),
           (valToStr g1, ⟨n2, safe_float_runner (.fin (quantileQ group2_vals (1 / 2))) 0⟩)]
        interpretation :=
          if fLt up.2 (.fin (1 / 20)) then "Significant difference detected (p < 0.05)"
          else "No significant difference (p ≥ 0.05)" }

/-- The `statistics` object of a Kruskal-Wallis response. -/
structure KWStatistics where
  h_statistic : ℚ
  p_value : ℚ
  df : ℤ
deriving DecidableEq, Repr

/-- A per-group entry of a Kruskal-Wallis response. -/
structure KWGroup where
  n : ℕ
  median : ℚ
  mean_rank : ℚ
deriving DecidableEq, Repr

/-- A Kruskal-Wallis response. -/
structure KWResult where
  test_name : String
  test_type : String
  statistics : KWStatistics
  groups : List (String × KWGroup)
  interpretation : String
deriving DecidableEq, Repr

/-- Oracle for `run_kruskal_wallis` (`stats.kruskal`). -/
structure KWOracle where
  kruskal : List (List ℚ) → F × F

/-- `scipy.stats.rankdata` (method 'average') of one value within a
list: number of smaller values plus half of `ties + 1`. -/
def rankAvg (all : List ℚ) (x : ℚ) : ℚ :=
  ((all.filter (fun y => decide (y < x))).length : ℚ) +
    (((all.filter (fun y => decide (y = x))).length : ℚ) + 1) / 2

/-- `run_kruskal_wallis` of `services/test_runner.py`.  The rank-slice
bookkeeping of the source assigns each group the ranks of its own values
within the concatenation, which is what the value-based `rankAvg` form
computes. -/
def run_kruskal_wallis (o : KWOracle) (data : TestData)
    (numeric_var categorical_var : String) : Except String KWResult :=
  let catCells := colOf data categorical_var
  let groups := pdUnique (dropna catCells)
  if groups.length < 2 then
    .error ("Error in Kruskal-Wallis test: Kruskal-Wallis test requires at least 2 groups, found "
      ++ toString groups.length)
  else
    let numCells := colOf data numeric_var
    let allGroupVals := groups.map (fun g => toNumericList (selectWhere catCells numCells g))
    let group_data := allGroupVals.filter (fun l => decide (l.length > 0))
    let hp := o.kruskal group_data
    let all_vals := group_data.flatten
    let groupsStats := (List.range groups.length).map (fun i =>
      let g := group_data.getD i []
      (valToStr (groups.getD i (Val.num 0)),
        (⟨g.length,
          safe_float_runner (if g.length = 0 then F.nan else .fin (quantileQ g (1 / 2))) 0,
          safe_float_runner (if g.length = 0 then F.nan
            else .fin (meanQ (g.map (rankAvg all_vals)))) 0⟩ : KWGroup)))
    .ok
      { test_name := "Kruskal-Wallis Test"
        test_type := "kruskal_wallis"
        statistics :=
          { h_statistic := safe_float_runner hp.1 0
            p_value := safe_float_runner hp.2 0
            df := (groups.length : ℤ) - 1 }
        groups := groupsStats
        interpretation :=
          if safe_float_runner hp.2 0 < 1 / 20 then
            "Significant difference between groups detected (p < 0.05)"
          else "No significant difference between groups (p ≥ 0.05)" }

/-- `request.variables.get(key)` on the request's variables dict. -/
def reqGet (rvars : List (String × String)) (k : String) : Option String :=
  (rvars.find? (fun p => decide (p.1 = k))).map Prod.snd

/-- Python falsiness of `request.variables.get(key)`: absent or the empty
string. -/
def isFalsy (x : Option String) : Bool :=
  match x with
  | none => true
  | some s => decide (s = "")

/-- The common body of every route in `routes/statistical_tests.py`:
missing required variables give 400; an unknown file id gives 404 (from
`load_file_data`, an HTTPException that is re-raised); any exception from
the runner is wrapped as a 500 with the exception text. -/
def statTestRoute {α : Type} (store : Store) (fid : String)
    (rvars : List (String × String)) (key1 key2 : String) (missingMsg : String)
    (runner : TestData → String → String → Except String α) :
    Store × HttpResult α :=
  if isFalsy (reqGet rvars key1) || isFalsy (reqGet rvars key2) then
    (store, .err 400 missingMsg)
  else
    match lookupStore store fid with
    | none => (store, .err 404 ("File " ++ fid ++ " not found"))
    | some entry =>
      match runner (recordsOf entry.dataframe) ((reqGet rvars key1).getD "")
          ((reqGet rvars key2).getD "") with
      | .error msg => (store, .err 500 msg)
      | .ok r => (store, .ok r)

/-- Route `POST /api/statistical-tests/ttest`. -/
def ttest_route (o : TtestOracle) (store : Store) (fid : String)
    (rvars : List (String × String)) : Store × HttpResult TtestResult :=
  statTestRoute store fid rvars "numeric" "categorical"
    "Missing required variables: numeric and categorical" (run_ttest o)

/-- Route `POST /api/statistical-tests/anova`. -/
def anova_route (o : AnovaOracle) (store : Store) (fid : String)
    (rvars : List (String × String)) : Store × HttpResult AnovaResult :=
  statTestRoute store fid rvars "numeric" "categorical"
    "Missing required variables: numeric and categorical" (run_anova o)

/-- Route `POST /api/statistical-tests/mann-whitney`. -/
def mann_whitney_route (o : MWOracle) (store : Store) (fid : String)
    (rvars : List (String × String)) : Store × HttpResult MWResult :=
  statTestRoute store fid rvars "numeric" "categorical"
    "Missing required variables: numeric and categorical" (run_mann_whitney o)

/-- Route `POST /api/statistical-tests/kruskal-wallis`. -/
def kruskal_route (o : KWOracle) (store : Store) (fid : String)
    (rvars : List (String × String)) : Store × HttpResult KWResult :=
  statTestRoute store fid rvars "numeric" "categorical"
    "Missing required variables: numeric and categorical" (run_kruskal_wallis o)

/-- Concrete oracles for witnesses (values irrelevant to the theorems that
use them; scipy returns NaN statistics on the degenerate witness data). -/
def ttestOracle0 : TtestOracle := ⟨fun _ _ => (.nan, .nan), fun _ => .nan, fun _ _ => .nan, fun _ => 0⟩

/-- Concrete ANOVA oracle for witnesses. -/
def anovaOracle0 : AnovaOracle := ⟨fun _ => (.nan, .nan), fun _ => .nan, fun _ => 0⟩

/-- Concrete Mann-Whitney oracle for witnesses. -/
def mwOracle0 : MWOracle := ⟨fun _ _ => (.nan, .nan), fun v => v, fun _ => 0⟩

/-- Concrete Kruskal-Wallis oracle for witnesses. -/
def kwOracle0 : KWOracle := ⟨fun _ => (.nan, .nan)⟩

/-- Witness table with a 3-group grouping column: numeric column `x`,
grouping column `g` with values "a"/"b"/"c". -/
def c1entry3 : FileEntry :=
  ⟨[("x", ⟨true, [some (Val.num 1), some (Val.num 2), some (Val.num 3)]⟩),
    ("g", ⟨false, [some (Val.str "a"), some (Val.str "b"), some (Val.str "c")]⟩)],
   "three.csv", 3, ["x", "g"]⟩

/-- Witness store holding the 3-group table. -/
def c1store3 : Store := [("f1", c1entry3)]

/-- Witness table with a 1-group grouping column. -/
def c1entry1 : FileEntry :=
  ⟨[("x", ⟨true, [some (Val.num 1), some (Val.num 2)]⟩),
    ("g", ⟨false, [some (Val.str "a"), some (Val.str "a")]⟩)],
   "one.csv", 2, ["x", "g"]⟩

/-- Witness store holding the 1-group table. -/
def c1store1 : Store := [("f1", c1entry1)]

/-- The request variables used by the group-count witnesses. -/
def c1vars : List (String × String) := [("numeric", "x"), ("categorical", "g")]

/-- Witness data for the NaN-to-default counterexample: two groups of one
row each, so each group's sample standard deviation is NaN (0/0 with
ddof=1). -/
def c2data : TestData :=
  [("x", [some (Val.num 1), some (Val.num 2)]),
   ("g", [some (Val.str "a"), some (Val.str "b")])]

/-- Line 280 of `services/regression_runner.py`:
`llf_null = -len(y) * np.log(1 / (1 - y.mean()))`, over an arbitrary field
with the logarithm as a parameter (`n = len(y)`, `pbar = y.mean()`). -/
def llf_null_code {K : Type} [Field K] (log : K → K) (n : ℕ) (pbar : K) : K :=
  -(n : K) * log (1 / (1 - pbar))

/-- The closed-form log-likelihood of the intercept-only (null) model that
the claim — and the code's own comment "null model with intercept only" —
specifies: `n * (pbar * ln(pbar) + (1 - pbar) * ln(1 - pbar))`. -/
def llf_null_intercept_only {K : Type} [Field K] (log : K → K) (n : ℕ) (pbar : K) : K :=
  (n : K) * (pbar * log pbar + (1 - pbar) * log (1 - pbar))

/-- Lines 279–281 of `services/regression_runner.py`: McFadden pseudo-R²
as reported, `1 - llf_full / llf_null` with the code's `llf_null` (0 when
`llf_null` is zero). -/
def mcfadden_r2 {K : Type} [Field K] [DecidableEq K] (log : K → K) (llf_full : K)
    (n : ℕ) (pbar : K) : K :=
  let llf_null := llf_null_code log n pbar
  if llf_null = 0 then 0 else 1 - llf_full / llf_null

/-- The values a histogram request works on:
`df[numeric_var].dropna()` (the column is numeric in every intended use;
non-numeric cells have no numeric value and are dropped). -/
def histVals (df : DFrame) (numeric_var : String) : List ℚ :=
  (dropna ((lookupCol df numeric_var).getD ⟨false, []⟩).cells).filterMap numOfVal

/-- The bin-width computation of `prepare_histogram_data` (`cbrt` is the
real cube root `len ** (1/3)`, a parameter because it is irrational;
`intDtype` is `all_values.dtype in ['int64', 'int32']`): width 1 when the
range is zero; else the Freedman-Diaconis width `2*iqr/n^(1/3)` when the
interquartile range is positive, otherwise the Sturges fallback
`range / clamp(int(log2 n)+1, 10, 50)`; and a floor of 1 for integer
columns. -/
def fd_bin_width (cbrt : ℚ → ℚ) (all_values : List ℚ) (intDtype : Bool) : ℚ :=
  let data_range := listMaxD all_values 0 - listMinD all_values 0
  if data_range = 0 then 1
  else
    let iqr := quantileQ all_values (3 / 4) - quantileQ all_values (1 / 4)
    let bw0 :=
      if 0 < iqr then 2 * iqr / cbrt (all_values.length : ℚ)
      else data_range / ((max 10 (min (Nat.log 2 all_values.length + 1) 50) : ℕ) : ℚ)
    if intDtype ∧ bw0 < 1 then 1 else bw0

/-- The `nbins` variable of `prepare_histogram_data` in the nonzero-range
branch: `max(10, min(int(data_range / bin_width) + 1, 100))`.  It is
computed by the source and clamped to 10–100, but never used: the traces'
bin spec uses `bin_width` directly. -/
def clamped_nbins (cbrt : ℚ → ℚ) (all_values : List ℚ) (intDtype : Bool) : ℕ :=
  let data_range := listMaxD all_values 0 - listMinD all_values 0
  max 10 (min ((⌊data_range / fd_bin_width cbrt all_values intDtype⌋).toNat + 1) 100)

/-- The `xbins` dict of a histogram trace (`xstart`/`xend`/`xsize` are the
JSON keys "start"/"end"/"size"). -/
structure XBins where
  xstart : ℚ
  xend : ℚ
  xsize : ℚ
deriving DecidableEq, Repr

/-- One histogram trace: values, name, opacity (0.7 only for grouped
traces), shared bin spec. -/
structure HistTrace where
  x : List ℚ
  name : String
  opacity : Option ℚ
  xbins : XBins
deriving DecidableEq, Repr

/-- A histogram payload: traces plus the layout's barmode. -/
structure HistData where
  data : List HistTrace
  barmode : String
deriving DecidableEq, Repr

/-- `prepare_histogram_data` of `app.py`: one trace per group (or a single
trace), all sharing `xbins = (data_min, data_max, bin_width)` computed over
the whole column. -/
def prepare_histogram_data (cbrt : ℚ → ℚ) (df : DFrame) (numeric_var : String)
    (group_var : Option String) (intDtype : Bool) : HistData :=
  let s := (lookupCol df numeric_var).getD ⟨false, []⟩
  let all_values := histVals df numeric_var
  if all_values.length = 0 then ⟨[], ""⟩
  else
    let data_min := listMinD all_values 0
    let data_max := listMaxD all_values 0
    let bin_width := fd_bin_width cbrt all_values intDtype
    let xb : XBins := ⟨data_min, data_max, bin_width⟩
    match group_var with
    | some gv =>
      let gCells := ((lookupCol df gv).getD ⟨false, []⟩).cells
      let groups := pdUnique (dropna gCells)
      ⟨groups.map (fun g =>
        ⟨(selectWhere gCells s.cells g).filterMap numOfVal, valToStr g, some (7 / 10), xb⟩),
       "overlay"⟩
    | none => ⟨[⟨all_values, numeric_var, none, xb⟩], "stack"⟩

/-- The concrete cube-root oracle of the histogram witness: exact at the
only point used (`8^(1/3) = 2`). -/
def c7cbrt : ℚ → ℚ := fun x => if x = 8 then 2 else 1

/-- Histogram witness dataframe: an integer column with the values 1,…,8. -/
def c7df : DFrame :=
  [("x", ⟨true,
    [some (Val.num 1), some (Val.num 2), some (Val.num 3), some (Val.num 4),
     some (Val.num 5), some (Val.num 6), some (Val.num 7), some (Val.num 8)]⟩)]

/-- Histogram witness dataframe with a two-valued grouping column. -/
def c7gdf : DFrame :=
  [("x", ⟨true,
    [some (Val.num 1), some (Val.num 2), some (Val.num 3), some (Val.num 4),
     some (Val.num 5), some (Val.num 6), some (Val.num 7), some (Val.num 8)]⟩),
   ("g", ⟨false,
    [some (Val.str "a"), some (Val.str "a"), some (Val.str "a"), some (Val.str "a"),
     some (Val.str "b"), some (Val.str "b"), some (Val.str "b"), some (Val.str "b")]⟩)]

/-- `len(df)`: the row count of a stored dataframe (all columns have the
same length). -/
def dfRows (df : DFrame) : ℕ := ((df.head?.map (fun p => p.2.cells.length)).getD 0)

/-- `get_sample_values` of `app.py`: the first five non-missing values as
strings, or the placeholder for an all-missing column. -/
def get_sample_values (s : Series) (n : ℕ) : List String :=
  let nn := dropna s.cells
  if nn.length = 0 then ["(all missing)"]
  else (nn.take (min n nn.length)).map valToStr

/-- One entry of the `analyze_variables` response. -/
structure VariableInfo where
  name : String
  detected_type : VarType
  missingness : ℕ
  missingness_percent : ℚ
  unique_count : ℕ
  sample_values : List String
  total_count : ℕ
deriving DecidableEq, Repr

/-- Handler `analyze_variables` of `app.py` (store-passing form): per-column
type detection plus missingness and samples. -/
def analyze_variables (store : Store) (fid : String) :
    Store × HttpResult (String × List VariableInfo) :=
  match lookupStore store fid with
  | none => (store, .err 404 "File not found")
  | some entry =>
    let total_rows := dfRows entry.dataframe
    (store, .ok (fid, entry.dataframe.map (fun p =>
      ⟨p.1, detect_variable_type p.2 total_rows, isnaCount p.2.cells,
        if 0 < total_rows then round2 ((isnaCount p.2.cells : ℚ) / (total_rows : ℚ) * 100)
        else 0,
        nuniqueCells p.2.cells, get_sample_values p.2 5, total_rows⟩)))

/-- One column's entry of a descriptive analysis (the keys "25%", "50%",
"75%", "min", "max" are `p25`/`p50`/`p75`/`vmin`/`vmax`). -/
structure DescStats where
  count : ℕ
  mean : Option ℚ
  std : Option ℚ
  vmin : Option ℚ
  p25 : Option ℚ
  p50 : Option ℚ
  p75 : Option ℚ
  vmax : Option ℚ
deriving DecidableEq, Repr

/-- One column's entry of a distribution analysis. -/
structure DistStats where
  skewness : Option ℚ
  kurtosis : Option ℚ
  shapiro_p_value : Option ℚ
  is_normal : Bool
deriving DecidableEq, Repr

/-- Oracle bundle for the library calls of the `/api/analyze` handler:
`Series.std`, `DataFrame.corr` (post-`fillna(0)` matrix), `stats.skew`,
`stats.kurtosis`, `stats.shapiro` (p-value, `none` models a raise) and the
random subsample of up to 5000 points. -/
structure AnalyzeOracle where
  stdF : List ℚ → F
  corr : DFrame → List String → List (String × List (String × F))
  skew : List ℚ → F
  kurtosis : List ℚ → F
  shapiro_p : List ℚ → Option F
  subsample : List ℚ → List ℚ

/-- `perform_descriptive_analysis` of `app.py` (columns that are empty
after `dropna` are skipped). -/
def perform_descriptive_analysis (o : AnalyzeOracle) (df : DFrame) (cols : List String) :
    List (String × DescStats) :=
  cols.foldl (fun acc col =>
    let col_data := (dropna ((lookupCol df col).getD ⟨false, []⟩).cells).filterMap numOfVal
    if col_data.length = 0 then acc
    else acc ++ [(col,
      ⟨col_data.length, some (meanQ col_data), safe_float_app (o.stdF col_data),
        some (listMinD col_data 0), some (quantileQ col_data (1 / 4)),
        some (quantileQ col_data (1 / 2)), some (quantileQ col_data (3 / 4)),
        some (listMaxD col_data 0)⟩)]) []

/-- `perform_correlation_analysis` of `app.py`: the oracle correlation
matrix with each entry through `safe_float`. -/
def perform_correlation_analysis (o : AnalyzeOracle) (df : DFrame) (cols : List String) :
    List (String × List (String × Option ℚ)) :=
  (o.corr df cols).map (fun p => (p.1, p.2.map (fun q => (q.1, safe_float_app q.2))))

/-- `perform_distribution_analysis` of `app.py`: columns with fewer than 3
values, or whose Shapiro call raises, are skipped; `is_normal` compares the
raw p-value (NaN compares false). -/
def perform_distribution_analysis (o : AnalyzeOracle) (df : DFrame) (cols : List String) :
    List (String × DistStats) :=
  cols.foldl (fun acc col =>
    let col_data := (dropna ((lookupCol df col).getD ⟨false, []⟩).cells).filterMap numOfVal
    if col_data.length < 3 then acc
    else
      match o.shapiro_p (o.subsample col_data) with
      | none => acc
      | some p => acc ++ [(col,
          ⟨safe_float_app (o.skew col_data), safe_float_app (o.kurtosis col_data),
            safe_float_app p, fLt (.fin (1 / 20)) p⟩)]) []

/-- The result variants of `/api/analyze`. -/
inductive AnalysisResults where
  | descriptive (r : List (String × DescStats))
  | correlation (matrix : List (String × List (String × Option ℚ))) (columns : List String)
  | distribution (r : List (String × DistStats))
deriving DecidableEq, Repr

/-- Response envelope of `/api/analyze`. -/
structure AnalyzeResp where
  analysis_type : String
  columns_analyzed : List String
  results : AnalysisResults
deriving DecidableEq, Repr

/-- Handler `analyze_data` of `app.py` (store-passing form): filters the
requested columns to existing numeric-dtype columns, then dispatches on
the analysis type. -/
def analyze_data (o : AnalyzeOracle) (store : Store) (file_id : Option String)
    (analysis_type : String) (columns : List String) : Store × HttpResult AnalyzeResp :=
  match file_id with
  | none => (store, .err 404 "File not found")
  | some fid =>
    match lookupStore store fid with
    | none => (store, .err 404 "File not found")
    | some entry =>
      if columns = [] then (store, .err 400 "No columns specified")
      else
        let numeric_columns := columns.filter (fun c =>
          match lookupCol entry.dataframe c with
          | some s => s.dtypeNumeric
          | none => false)
        if numeric_columns = [] then (store, .err 400 "No valid numeric columns found")
        else if analysis_type = "descriptive" then
          (store, .ok ⟨analysis_type, numeric_columns,
            .descriptive (perform_descriptive_analysis o entry.dataframe numeric_columns)⟩)
        else if analysis_type = "correlation" then
          (store, .ok ⟨analysis_type, numeric_columns,
            .correlation (perform_correlation_analysis o entry.dataframe numeric_columns)
              columns⟩)
        else if analysis_type = "distribution" then
          (store, .ok ⟨analysis_type, numeric_columns,
            .distribution (perform_distribution_analysis o entry.dataframe numeric_columns)⟩)
        else (store, .err 400 ("Unknown analysis type: " ++ analysis_type))

/-- The groups of a grouping column paired with their numeric values
(shared shape of the grouped visualization preparers). -/
def groupedNumericValues (df : DFrame) (numeric_var gv : String) : List (Val × List ℚ) :=
  let gCells := ((lookupCol df gv).getD ⟨false, []⟩).cells
  let nCells := ((lookupCol df numeric_var).getD ⟨false, []⟩).cells
  (pdUnique (dropna gCells)).map (fun g => (g, (selectWhere gCells nCells g).filterMap numOfVal))

/-- One box-plot trace. -/
structure BoxTrace where
  y : List ℚ
  name : String
deriving DecidableEq, Repr

/-- `prepare_boxplot_data` of `app.py`. -/
def prepare_boxplot_data (df : DFrame) (numeric_var : String) (group_var : Option String) :
    List BoxTrace :=
  match group_var with
  | some g => (groupedNumericValues df numeric_var g).map (fun p => ⟨p.2, valToStr p.1⟩)
  | none => [⟨histVals df numeric_var, numeric_var⟩]

/-- One violin trace ('box' and 'meanline' visibility flags are always
set). -/
structure ViolinTrace where
  y : List ℚ
  name : String
  boxVisible : Bool
  meanlineVisible : Bool
deriving DecidableEq, Repr

/-- `prepare_violin_data` of `app.py`. -/
def prepare_violin_data (df : DFrame) (numeric_var : String) (group_var : Option String) :
    List ViolinTrace :=
  match group_var with
  | some g => (groupedNumericValues df numeric_var g).map (fun p => ⟨p.2, valToStr p.1, true, true⟩)
  | none => [⟨histVals df numeric_var, numeric_var, true, true⟩]

/-- `np.linspace(a, b, n)`. -/
def linspaceQ (a b : ℚ) (n : ℕ) : List ℚ :=
  (List.range n).map (fun i => a + (b - a) * (i : ℚ) / ((n : ℚ) - 1))

/-- One kernel-density trace (the densities are raw library outputs, no
safe_float). -/
structure DensityTrace where
  x : List ℚ
  y : List F
  name : String
deriving DecidableEq, Repr

/-- `prepare_density_data` of `app.py` (`kde values t` is the gaussian KDE
of `values` evaluated at `t`); groups with fewer than 2 values produce no
trace. -/
def prepare_density_data (kde : List ℚ → ℚ → F) (df : DFrame) (numeric_var : String)
    (group_var : Option String) : List DensityTrace :=
  match group_var with
  | some g =>
    (groupedNumericValues df numeric_var g).foldl (fun acc p =>
      if 1 < p.2.length then
        let xr := linspaceQ (listMinD p.2 0) (listMaxD p.2 0) 200
        acc ++ [⟨xr, xr.map (kde p.2), valToStr p.1⟩]
      else acc) []
  | none =>
    let values := histVals df numeric_var
    if 1 < values.length then
      let xr := linspaceQ (listMinD values 0) (listMaxD values 0) 200
      [⟨xr, xr.map (kde values), numeric_var⟩]
    else []

/-- The mean-with-CI scatter trace (x labels, means, upper error bars). -/
structure MeanCiTrace where
  x : List String
  y : List ℚ
  err : List F
deriving DecidableEq, Repr

/-- `prepare_mean_ci_data` of `app.py` (`tci` is
`stats.t.interval(0.95, n-1, loc=mean, scale=sem(data))`; the grouped
branch skips groups with fewer than 2 values, the ungrouped branch
computes unconditionally — an empty column would make the library return
NaN, modelled exactly only for non-empty columns). -/
def prepare_mean_ci_data (tci : List ℚ → F × F) (df : DFrame) (numeric_var : String)
    (group_var : Option String) : MeanCiTrace :=
  match group_var with
  | some g =>
    (groupedNumericValues df numeric_var g).foldl (fun acc p =>
      if 1 < p.2.length then
        let m := meanQ p.2
        let ci := tci p.2
        ⟨acc.x ++ [valToStr p.1], acc.y ++ [m], acc.err ++ [fSub ci.2 (.fin m)]⟩
      else acc) ⟨[], [], []⟩
  | none =>
    let d := histVals df numeric_var
    let m := meanQ d
    let ci := tci d
    ⟨[numeric_var], [m], [fSub ci.2 (.fin m)]⟩

/-- One bar trace (x keeps the raw category values, as
`list(counts.keys())` does). -/
structure BarTrace where
  x : List Val
  y : List ℕ
  name : String
deriving DecidableEq, Repr

/-- `prepare_barplot_data` of `app.py`. -/
def prepare_barplot_data (df : DFrame) (categorical_var : String)
    (stack_var : Option String) : List BarTrace :=
  let catCells := ((lookupCol df categorical_var).getD ⟨false, []⟩).cells
  match stack_var with
  | some sv =>
    let svCells := ((lookupCol df sv).getD ⟨false, []⟩).cells
    (pdUnique (dropna svCells)).map (fun sg =>
      let counts := value_counts (selectWhere svCells catCells sg)
      ⟨counts.map Prod.fst, counts.map Prod.snd, valToStr sg⟩)
  | none =>
    let counts := value_counts (dropna catCells)
    [⟨counts.map Prod.fst, counts.map Prod.snd, categorical_var⟩]

/-- One scatter trace (raw values). -/
structure ScatterTrace where
  x : List Val
  y : List Val
  name : String
deriving DecidableEq, Repr

/-- Pairwise-complete selection: rows where both cells are present. -/
def pairedVals (xc yc : List Cell) : List (Val × Val) :=
  (xc.zip yc).filterMap (fun p =>
    match p with
    | (some a, some b) => some (a, b)
    | _ => none)

/-- Pairwise-complete selection within one color group. -/
def selectPairsWhere (cCells xCells yCells : List Cell) (g : Val) : List (Val × Val) :=
  (cCells.zip (xCells.zip yCells)).filterMap (fun p =>
    match p with
    | (some cv, (some a, some b)) => if cv = g then some (a, b) else none
    | _ => none)

/-- `prepare_scatter_data` of `app.py` (including the `x_var == y_var`
special case). -/
def prepare_scatter_data (df : DFrame) (x_var y_var : String) (color_var : Option String) :
    List ScatterTrace :=
  let xCells := ((lookupCol df x_var).getD ⟨false, []⟩).cells
  let yCells := ((lookupCol df y_var).getD ⟨false, []⟩).cells
  match color_var with
  | some cv =>
    let cCells := ((lookupCol df cv).getD ⟨false, []⟩).cells
    (pdUnique (dropna cCells)).map (fun g =>
      let pairs := selectPairsWhere cCells xCells yCells g
      ⟨pairs.map Prod.fst, pairs.map Prod.snd, valToStr g⟩)
  | none =>
    if x_var = y_var then
      let xs := dropna xCells
      [⟨xs, xs, x_var ++ " vs " ++ y_var⟩]
    else
      let pairs := pairedVals xCells yCells
      [⟨pairs.map Prod.fst, pairs.map Prod.snd, x_var ++ " vs " ++ y_var⟩]

/-- The `variables` dict of a visualization request. -/
structure VisVars where
  numeric : Option String
  categorical : Option String
  x_var : Option String
  y_var : Option String
  color_var : Option String
  stack_var : Option String
deriving DecidableEq, Repr

/-- The payload variants of `/api/visualize/file_id`. -/
inductive PlotPayload where
  | histogram (d : HistData)
  | box (d : List BoxTrace)
  | violin (d : List ViolinTrace)
  | density (d : List DensityTrace)
  | meanCi (d : MeanCiTrace)
  | bar (d : List BarTrace)
  | scatter (d : List ScatterTrace)
deriving DecidableEq, Repr

/-- Oracle bundle for the visualization handler (gaussian KDE, Student
t-interval, cube root for the histogram width). -/
structure VisualizeOracle where
  kde : List ℚ → ℚ → F
  t_interval : List ℚ → F × F
  cbrt : ℚ → ℚ

/-- Handler `get_visualization_data` of `app.py` (store-passing form).
This handler has no `except HTTPException: raise` clause, so even its own
404/400 HTTPExceptions are caught by `except Exception` and re-raised as
500 with `str(e)` (hence the "404: …"/"400: …" details).  `intDtype` is
the int64/int32-dtype test on the numeric column used by the histogram. -/
def get_visualization_data (vo : VisualizeOracle) (intDtype : Bool) (store : Store)
    (fid : String) (plot_type : String) (v : VisVars) :
    Store × HttpResult PlotPayload :=
  match lookupStore store fid with
  | none => (store, .err 500 "404: File not found")
  | some entry =>
    let df := entry.dataframe
    if plot_type = "histogram" then
      (store, .ok (.histogram
        (prepare_histogram_data vo.cbrt df (v.numeric.getD "") v.categorical intDtype)))
    else if plot_type = "boxplot" then
      (store, .ok (.box (prepare_boxplot_data df (v.numeric.getD "") v.categorical)))
    else if plot_type = "violin" then
      (store, .ok (.violin (prepare_violin_data df (v.numeric.getD "") v.categorical)))
    else if plot_type = "density" then
      (store, .ok (.density (prepare_density_data vo.kde df (v.numeric.getD "") v.categorical)))
    else if plot_type = "mean_ci" then
      (store, .ok (.meanCi (prepare_mean_ci_data vo.t_interval df (v.numeric.getD "")
        v.categorical)))
    else if plot_type = "barplot" then
      (store, .ok (.bar (prepare_barplot_data df (v.categorical.getD "") v.stack_var)))
    else if plot_type = "scatter" then
      (store, .ok (.scatter (prepare_scatter_data df (v.x_var.getD "") (v.y_var.getD "")
        v.color_var)))
    else (store, .err 500 "400: Invalid plot type")

/-- The common body of the two routes in `routes/regression.py`
(store-passing form): missing dependent/independent variables give 400, an
unknown file id gives 404, runner exceptions become 500 with the exception
text; the runner receives the record copy of the dataframe. -/
def regression_route {α : Type} (store : Store) (fid : String)
    (dep : Option String) (indep : List String)
    (runner : TestData → String → List String → Except String α) :
    Store × HttpResult α :=
  if isFalsy dep then (store, .err 400 "Missing required variable: dependent")
  else if indep.isEmpty then
    (store, .err 400 "Missing required variables: independent (at least one)")
  else
    match lookupStore store fid with
    | none => (store, .err 404 ("File " ++ fid ++ " not found"))
    | some entry =>
      match runner (recordsOf entry.dataframe) (dep.getD "") indep with
      | .error m => (store, .err 500 m)
      | .ok r => (store, .ok r)

/-- The store write performed by `upload_file` / `load_sample_data`
(`uploaded_files[file_id] = {...}` under a fresh uuid key) — the only
store mutation in the repository, shown here for contrast with the
read-only handlers. -/
def upload_register (store : Store) (fid : String) (df : DFrame) (filename : String) :
    Store :=
  store ++ [(fid, ⟨df, filename, dfRows df, df.map Prod.fst⟩)]

/-! ## Helper lemmas -/

/-- Rate-threshold reformulation with integer arithmetic, used to evaluate
the 80% check on concrete inputs. -/
lemma rate_gt_four_fifths (k n : ℕ) (hn : 0 < n) :
    ((k : ℚ) / (n : ℚ) > 4 / 5) ↔ 4 * n < k * 5 := by
  rw [gt_iff_lt, div_lt_div_iff₀ (by norm_num) (by exact_mod_cast hn)]
  exact_mod_cast Iff.rfl

/-- Rate-threshold reformulation with integer arithmetic, used to evaluate
the 90% check on concrete inputs. -/
lemma rate_gt_nine_tenths (k n : ℕ) (hn : 0 < n) :
    ((k : ℚ) / (n : ℚ) > 9 / 10) ↔ 9 * n < k * 10 := by
  rw [gt_iff_lt, div_lt_div_iff₀ (by norm_num) (by exact_mod_cast hn)]
  exact_mod_cast Iff.rfl

/-- The categorical threshold `u < min(rows * 0.5, 20)` reformulated with
integer arithmetic. -/
lemma lt_min_half_twenty_iff (u rows : ℕ) :
    ((u : ℚ) < min ((rows : ℚ) / 2) 20) ↔ (u * 2 < rows ∧ u < 20) := by
  rw [lt_min_iff, lt_div_iff₀ (by norm_num : (0 : ℚ) < 2)]
  constructor
  · rintro ⟨h1, h2⟩
    exact ⟨by exact_mod_cast h1, by exact_mod_cast h2⟩
  · rintro ⟨h1, h2⟩
    exact ⟨by exact_mod_cast h1, by exact_mod_cast h2⟩

lemma is_date_type_eq (s : Series) : is_date_type s = is_date_typeN s := by
  by_cases h0 : (dropna s.cells).length = 0
  · simp [is_date_type, is_date_typeN, h0]
  · have hpos : 0 < (dropna s.cells).length := Nat.pos_of_ne_zero h0
    by_cases hd : s.dtypeNumeric
    · simp [is_date_type, is_date_typeN, h0, hd]
    · simp [is_date_type, is_date_typeN, h0, hd, List.length_map,
        rate_gt_four_fifths _ _ hpos]

lemma is_numeric_type_eq (s : Series) : is_numeric_type s = is_numeric_typeN s := by
  by_cases h0 : (dropna s.cells).length = 0
  · simp [is_numeric_type, is_numeric_typeN, h0]
  · have hpos : 0 < (dropna s.cells).length := Nat.pos_of_ne_zero h0
    by_cases hd : s.dtypeNumeric
    · simp [is_numeric_type, is_numeric_typeN, h0, hd]
    · simp [is_numeric_type, is_numeric_typeN, h0, hd, rate_gt_nine_tenths _ _ hpos]

lemma lt_half_iff (u rows : ℕ) : ((u : ℚ) < (rows : ℚ) / 2) ↔ u * 2 < rows := by
  rw [lt_div_iff₀ (by norm_num : (0 : ℚ) < 2)]
  exact_mod_cast Iff.rfl

lemma is_categorical_type_eq (s : Series) (rows : ℕ) :
    is_categorical_type s rows = is_categorical_typeN s rows := by
  simp [is_categorical_type, is_categorical_typeN, lt_min_half_twenty_iff, lt_half_iff]

lemma is_date_type_ckpt_eq (parseDate : Val → Bool) (s : Series) :
    is_date_type_ckpt parseDate s = is_date_type_ckptN parseDate s := by
  by_cases h0 : (dropna s.cells).length = 0
  · simp [is_date_type_ckpt, is_date_type_ckptN, h0]
  · have hpos : 0 < (dropna s.cells).length := Nat.pos_of_ne_zero h0
    simp [is_date_type_ckpt, is_date_type_ckptN, h0, rate_gt_nine_tenths _ _ hpos]

/-! ## Claim theorems -/

/-- C3, counterexample: the claim "a numeric column with at most 20
distinct non-missing values is classified categorical, for any total row
count" is false on the code.  With exactly 20 distinct values in 40 rows
the threshold check `20 < min(40*0.5, 20) = 20` fails, and with 3 distinct
values in a 3-row table the threshold is `1.5`; both columns are
classified numeric. -/
theorem C3_counterexample :
    nuniqueCells c3col20.cells = 20 ∧ c3col20.dtypeNumeric = true ∧
      detect_variable_type c3col20 40 ≠ VarType.categorical ∧
      detect_variable_type c3col20 40 = VarType.numeric ∧
    nuniqueCells c3col3.cells = 3 ∧ c3col3.dtypeNumeric = true ∧
      detect_variable_type c3col3 3 ≠ VarType.categorical ∧
      detect_variable_type c3col3 3 = VarType.numeric := by
  have h20 : detect_variable_type c3col20 40 = VarType.numeric := by
    unfold detect_variable_type
    rw [is_date_type_eq, is_categorical_type_eq, is_numeric_type_eq]
    decide
  have h3 : detect_variable_type c3col3 3 = VarType.numeric := by
    unfold detect_variable_type
    rw [is_date_type_eq, is_categorical_type_eq, is_numeric_type_eq]
    decide
  refine ⟨by decide, rfl, ?_, h20, by decide, rfl, ?_, h3⟩
  · rw [h20]; decide
  · rw [h3]; decide

/-- C3, amended: a numeric-storage-dtype column is classified categorical
iff its distinct non-missing value count is strictly below
`min(total_rows * 0.5, 20)`. -/
theorem C3_categorical_iff (cells : List Cell) (rows : ℕ) :
    detect_variable_type ⟨true, cells⟩ rows = VarType.categorical ↔
      (nuniqueCells cells : ℚ) < min ((rows : ℚ) / 2) 20 := by
  have hdate : is_date_type ⟨true, cells⟩ = false := by
    unfold is_date_type
    dsimp only
    split
    · rfl
    · rfl
  have hcat : is_categorical_type ⟨true, cells⟩ rows =
      decide ((nuniqueCells cells : ℚ) < min ((rows : ℚ) / 2) 20) := rfl
  unfold detect_variable_type
  rw [hdate]
  simp only [Bool.false_eq_true, if_false]
  by_cases hc : (nuniqueCells cells : ℚ) < min ((rows : ℚ) / 2) 20
  · rw [hcat, decide_eq_true hc]
    simp [hc]
  · rw [hcat, decide_eq_false hc]
    simp only [Bool.false_eq_true, if_false]
    constructor
    · intro h
      exfalso
      by_cases hn : is_numeric_type ⟨true, cells⟩ = true <;> simp [hn] at h
    · intro h
      exact absurd h hc

/-- C8 (confirmed): the two revisions of `detect_variable_type` are not
equivalent.  On an object-dtype column of the decimal strings
"1.5"/"2.5"/"3.5" (3 distinct values, 8 rows) — values that
`pd.to_datetime` does not parse — the current revision (categorical before
numeric) returns categorical while the checkpoint revision (numeric before
categorical, date detection via parse-success rate) returns numeric. -/
theorem C8_detectors_inequivalent (parseDate : Val → Bool)
    (h15 : parseDate (Val.str "1.5") = false)
    (h25 : parseDate (Val.str "2.5") = false)
    (h35 : parseDate (Val.str "3.5") = false) :
    detect_variable_type c8col 8 = VarType.categorical ∧
    detect_variable_type_ckpt parseDate c8col 8 = VarType.numeric := by
  constructor
  · unfold detect_variable_type
    rw [is_date_type_eq, is_categorical_type_eq, is_numeric_type_eq]
    decide
  · have hd : dropna c8col.cells =
        [Val.str "1.5", Val.str "2.5", Val.str "3.5", Val.str "1.5",
         Val.str "2.5", Val.str "3.5", Val.str "1.5", Val.str "2.5"] := rfl
    have hf : (dropna c8col.cells).filter parseDate = [] := by
      rw [hd]
      simp [List.filter_cons, h15, h25, h35]
    simp only [detect_variable_type_ckpt, is_date_type_ckpt_eq, is_date_type_ckptN, hf,
      List.length_nil]
    rw [is_numeric_type_eq, is_categorical_type_eq]
    decide

/-- C8, witness: the inequivalence theorem applied at the concrete
`pd.to_datetime`-failure oracle that rejects every value. -/
theorem C8_detectors_inequivalent_witness :
    detect_variable_type c8col 8 = VarType.categorical ∧
    detect_variable_type_ckpt (fun _ => false) c8col 8 = VarType.numeric :=
  C8_detectors_inequivalent (fun _ => false) rfl rfl rfl

/-- Shared helper: when the column has non-missing values but numeric
coercion drops them all, `compute_numeric_summary` takes its second guard
branch: all statistics null, missing count/percent from the original
series. -/
lemma numeric_summary_coercion_fails (o : StatsOracle) (s : Series)
    (h1 : dropna s.cells ≠ []) (h2 : coercedVals s = []) :
    compute_numeric_summary o s =
      nullNumericSummary (isnaCount s.cells) (missingPercent s.cells) := by
  have h1' : ¬ ((dropna s.cells).length = 0) := by
    simpa [List.length_eq_zero] using h1
  unfold compute_numeric_summary
  simp [h1', h2]

/-- C5, counterexample: on the column ["a","b","c"] (3 non-missing,
unparseable values, 0 actually-missing cells) the numeric summary returns
all statistics null but reports 0% missing, not the claimed 100%. -/
theorem C5_counterexample :
    (compute_numeric_summary oracle0 c5col).mean = none ∧
    (compute_numeric_summary oracle0 c5col).sd = none ∧
    (compute_numeric_summary oracle0 c5col).median = none ∧
    (compute_numeric_summary oracle0 c5col).q1 = none ∧
    (compute_numeric_summary oracle0 c5col).q3 = none ∧
    (compute_numeric_summary oracle0 c5col).vmin = none ∧
    (compute_numeric_summary oracle0 c5col).vmax = none ∧
    (compute_numeric_summary oracle0 c5col).kurtosis = none ∧
    (compute_numeric_summary oracle0 c5col).skewness = none ∧
    (compute_numeric_summary oracle0 c5col).shapiro_stat = none ∧
    (compute_numeric_summary oracle0 c5col).shapiro_p = none ∧
    (compute_numeric_summary oracle0 c5col).jb_stat = none ∧
    (compute_numeric_summary oracle0 c5col).jb_p = none ∧
    (compute_numeric_summary oracle0 c5col).missing_count = 0 ∧
    (compute_numeric_summary oracle0 c5col).missing_percent = 0 ∧
    (compute_numeric_summary oracle0 c5col).missing_percent ≠ 100 := by
  have h := numeric_summary_coercion_fails oracle0 c5col (by decide) (by decide)
  rw [h]
  have hic : isnaCount c5col.cells = 0 := by decide
  have hmp : missingPercent c5col.cells = 0 := by
    simp [missingPercent, hic, round2]
  simp [nullNumericSummary, hmp, hic]

/-- C5, amended: for every column with at least one non-missing value,
all of which fail numeric coercion, `compute_numeric_summary` returns (it
takes a guard branch rather than raising) with every statistic field null
and with the column's actual missing count and rounded missing percent —
100% is reported only when every cell is actually missing. -/
theorem C5_unparseable_all_null (o : StatsOracle) (s : Series)
    (h1 : dropna s.cells ≠ []) (h2 : coercedVals s = []) :
    compute_numeric_summary o s =
      nullNumericSummary (isnaCount s.cells) (missingPercent s.cells) :=
  numeric_summary_coercion_fails o s h1 h2

/-- C5, witness: the amended theorem applied to the column ["a","b","c"]. -/
theorem C5_unparseable_all_null_witness :
    compute_numeric_summary oracle0 c5col =
      nullNumericSummary (isnaCount c5col.cells) (missingPercent c5col.cells) :=
  C5_unparseable_all_null oracle0 c5col (by decide) (by decide)

/-- C4, counterexample: the claim says the date summary contains a
frequency table of dates rounded to the caller's granularity.  In fact the
handler ignores the `dateRounding` request field entirely (the responses
for year- and day-granularity requests are identical), and the summary
contains no frequency table: it returns the raw parsed dates at day
precision ("2024-01-15" and "2024-03-20" stay distinct under a
year-granularity request, where rounding would merge them). -/
theorem C4_counterexample :
    get_summary_statistics oracle0 c4parse c4iso c4store "f1"
        ⟨[⟨"d", "date"⟩], [("d", "year")], 42⟩ =
      get_summary_statistics oracle0 c4parse c4iso c4store "f1"
        ⟨[⟨"d", "date"⟩], [("d", "day")], 42⟩ ∧
    (compute_date_summary c4parse c4iso c4dcol).raw_dates =
      ["2024-01-15", "2024-03-20"] ∧
    (compute_date_summary c4parse c4iso c4dcol).min_date = some "2024-01-15" ∧
    (compute_date_summary c4parse c4iso c4dcol).max_date = some "2024-03-20" := by
  refine ⟨rfl, by decide, by decide, by decide⟩

/-- C4, amended: the date summary has no frequency table and no rounding
input; whenever at least one value parses, it returns the min and max of
the successfully parsed dates and the list of all parsed dates — values
that fail date parsing are excluded from both the bounds and the list
(rounding to the requested granularity happens in the frontend, not
here). -/
theorem C4_date_summary_shape (parse : Val → Option ℤ) (iso : ℤ → String) (s : Series)
    (h : (dropna s.cells).filterMap parse ≠ []) :
    compute_date_summary parse iso s =
      { min_date := some (iso (listMinD ((dropna s.cells).filterMap parse) 0)),
        max_date := some (iso (listMaxD ((dropna s.cells).filterMap parse) 0)),
        missing_count := isnaCount s.cells,
        missing_percent := missingPercent s.cells,
        raw_dates := ((dropna s.cells).filterMap parse).map iso } := by
  have h2 : ¬ (((dropna s.cells).filterMap parse).length = 0) := by
    simpa [List.length_eq_zero] using h
  have h1 : ¬ ((dropna s.cells).length = 0) := by
    intro h0
    rw [List.length_eq_zero] at h0
    exact h (by simp [h0])
  unfold compute_date_summary
  simp [h1, h2]

/-- C4, witness: the amended shape theorem applied to the witness date
column (the unparseable "notadate" is dropped from bounds and list). -/
theorem C4_date_summary_shape_witness :
    compute_date_summary c4parse c4iso c4dcol =
      { min_date := some (c4iso (listMinD ((dropna c4dcol.cells).filterMap c4parse) 0)),
        max_date := some (c4iso (listMaxD ((dropna c4dcol.cells).filterMap c4parse) 0)),
        missing_count := isnaCount c4dcol.cells,
        missing_percent := missingPercent c4dcol.cells,
        raw_dates := ((dropna c4dcol.cells).filterMap c4parse).map c4iso } :=
  C4_date_summary_shape c4parse c4iso c4dcol (by decide)

/-- C10 (confirmed): two summary-statistics requests over the same store,
file and variable selection that differ only in their `textSeed` and
`dateRounding` fields produce identical responses — the handler reads both
fields but passes neither to any summary function (so in particular every
text and date summary is unchanged); and the text summary always returns
all raw non-missing values, never a seeded sample. -/
theorem C10_seed_and_rounding_immaterial :
    (∀ (o : StatsOracle) (parse : Val → Option ℤ) (iso : ℤ → String) (store : Store)
        (fid : String) (vars : List VarSel) (dr1 dr2 : List (String × String))
        (sd1 sd2 : ℤ),
        get_summary_statistics o parse iso store fid ⟨vars, dr1, sd1⟩ =
          get_summary_statistics o parse iso store fid ⟨vars, dr2, sd2⟩) ∧
    (∀ s : Series, (compute_text_summary s).raw_values = (dropna s.cells).map valToStr) := by
  constructor
  · intro o parse iso store fid vars dr1 dr2 sd1 sd2
    rfl
  · intro s
    by_cases h : (dropna s.cells).length = 0
    · have h0 : dropna s.cells = [] := List.length_eq_zero.mp h
      simp [compute_text_summary, h, h0]
    · simp [compute_text_summary, h]

/-- Shared helper: the route wrapper forwards a runner exception as a 500
with the exception text when both required variables are present and the
file id is known. -/
lemma statTestRoute_error {α : Type} (store : Store) (fid : String)
    (rvars : List (String × String)) (key1 key2 msg : String)
    (runner : TestData → String → String → Except String α)
    (entry : FileEntry) (v1 v2 m : String)
    (hstore : lookupStore store fid = some entry)
    (h1 : reqGet rvars key1 = some v1) (h1' : v1 ≠ "")
    (h2 : reqGet rvars key2 = some v2) (h2' : v2 ≠ "")
    (hrun : runner (recordsOf entry.dataframe) v1 v2 = .error m) :
    (statTestRoute store fid rvars key1 key2 msg runner).2 = .err 500 m := by
  have hf1 : isFalsy (reqGet rvars key1) = false := by
    rw [h1]; simp [isFalsy, h1']
  have hf2 : isFalsy (reqGet rvars key2) = false := by
    rw [h2]; simp [isFalsy, h2']
  unfold statTestRoute
  rw [hf1, hf2, hstore]
  simp only [Bool.or_self, Bool.false_eq_true, if_false]
  rw [h1, h2]
  simp only [Option.getD_some]
  rw [hrun]

/-- Shared helper: the group-count guard of `run_ttest`. -/
lemma run_ttest_guard (o : TtestOracle) (data : TestData) (numv catv : String)
    (hk : (pdUnique (dropna (colOf data catv))).length ≠ 2) :
    run_ttest o data numv catv =
      .error ("Error in t-test: t-test requires exactly 2 groups, found " ++
        toString (pdUnique (dropna (colOf data catv))).length) := by
  unfold run_ttest
  rw [if_pos hk]

/-- Shared helper: the group-count guard of `run_mann_whitney`. -/
lemma run_mann_whitney_guard (o : MWOracle) (data : TestData) (numv catv : String)
    (hk : (pdUnique (dropna (colOf data catv))).length ≠ 2) :
    run_mann_whitney o data numv catv =
      .error ("Error in Mann-Whitney U test: Mann-Whitney U test requires exactly 2 groups, found "
        ++ toString (pdUnique (dropna (colOf data catv))).length) := by
  unfold run_mann_whitney
  rw [if_pos hk]

/-- Shared helper: the group-count guard of `run_anova`. -/
lemma run_anova_guard (o : AnovaOracle) (data : TestData) (numv catv : String)
    (hk : (pdUnique (dropna (colOf data catv))).length < 2) :
    run_anova o data numv catv =
      .error ("Error in ANOVA: ANOVA requires at least 2 groups, found " ++
        toString (pdUnique (dropna (colOf data catv))).length) := by
  unfold run_anova
  rw [if_pos hk]

/-- Shared helper: the group-count guard of `run_kruskal_wallis`. -/
lemma run_kruskal_guard (o : KWOracle) (data : TestData) (numv catv : String)
    (hk : (pdUnique (dropna (colOf data catv))).length < 2) :
    run_kruskal_wallis o data numv catv =
      .error ("Error in Kruskal-Wallis test: Kruskal-Wallis test requires at least 2 groups, found "
        ++ toString (pdUnique (dropna (colOf data catv))).length) := by
  unfold run_kruskal_wallis
  rw [if_pos hk]

/-- C1, counterexample: a t-test request with a valid file id whose
grouping variable has 3 groups is answered with a 500, not the claimed
4xx: the runner's ValueError is re-raised as a generic exception and the
route maps every non-HTTPException to status 500. -/
theorem C1_counterexample :
    (ttest_route ttestOracle0 c1store3 "f1" c1vars).2 =
      HttpResult.err 500 "Error in t-test: t-test requires exactly 2 groups, found 3" := by
  decide

/-- C1, amended: a statistical-test request with a valid file id and both
required variables present, whose grouping variable has a group count that
does not match the test's requirement, is answered with HTTP 500 whose
message wraps the descriptive group-count text ("Error in <test>: <test>
requires … groups, found k") — not with a 4xx.  Only missing required
variables (400) and an unknown file id (404) produce 4xx responses. -/
theorem C1_group_mismatch_is_500 (ot : TtestOracle) (oa : AnovaOracle) (om : MWOracle)
    (okw : KWOracle) (store : Store) (fid : String) (entry : FileEntry)
    (rvars : List (String × String)) (numv catv : String)
    (hstore : lookupStore store fid = some entry)
    (hnum : reqGet rvars "numeric" = some numv) (hnum' : numv ≠ "")
    (hcat : reqGet rvars "categorical" = some catv) (hcat' : catv ≠ "") :
    ((pdUnique (dropna (colOf (recordsOf entry.dataframe) catv))).length ≠ 2 →
      (ttest_route ot store fid rvars).2 =
        .err 500 ("Error in t-test: t-test requires exactly 2 groups, found " ++
          toString (pdUnique (dropna (colOf (recordsOf entry.dataframe) catv))).length) ∧
      (mann_whitney_route om store fid rvars).2 =
        .err 500 ("Error in Mann-Whitney U test: Mann-Whitney U test requires exactly 2 groups, found "
          ++ toString (pdUnique (dropna (colOf (recordsOf entry.dataframe) catv))).length)) ∧
    ((pdUnique (dropna (colOf (recordsOf entry.dataframe) catv))).length < 2 →
      (anova_route oa store fid rvars).2 =
        .err 500 ("Error in ANOVA: ANOVA requires at least 2 groups, found " ++
          toString (pdUnique (dropna (colOf (recordsOf entry.dataframe) catv))).length) ∧
      (kruskal_route okw store fid rvars).2 =
        .err 500 ("Error in Kruskal-Wallis test: Kruskal-Wallis test requires at least 2 groups, found "
          ++ toString (pdUnique (dropna (colOf (recordsOf entry.dataframe) catv))).length)) := by
  constructor
  · intro hk
    constructor
    · exact statTestRoute_error store fid rvars "numeric" "categorical" _ _ entry numv catv _
        hstore hnum hnum' hcat hcat' (run_ttest_guard ot _ numv catv hk)
    · exact statTestRoute_error store fid rvars "numeric" "categorical" _ _ entry numv catv _
        hstore hnum hnum' hcat hcat' (run_mann_whitney_guard om _ numv catv hk)
  · intro hk
    constructor
    · exact statTestRoute_error store fid rvars "numeric" "categorical" _ _ entry numv catv _
        hstore hnum hnum' hcat hcat' (run_anova_guard oa _ numv catv hk)
    · exact statTestRoute_error store fid rvars "numeric" "categorical" _ _ entry numv catv _
        hstore hnum hnum' hcat hcat' (run_kruskal_guard okw _ numv catv hk)

/-- C1, witness: the amended theorem applied at a 3-group table (t-test
branch) and at a 1-group table (ANOVA branch). -/
theorem C1_group_mismatch_is_500_witness :
    (ttest_route ttestOracle0 c1store3 "f1" c1vars).2 =
      HttpResult.err 500 "Error in t-test: t-test requires exactly 2 groups, found 3" ∧
    (anova_route anovaOracle0 c1store1 "f1" c1vars).2 =
      HttpResult.err 500 "Error in ANOVA: ANOVA requires at least 2 groups, found 1" := by
  constructor
  · have h := C1_group_mismatch_is_500 ttestOracle0 anovaOracle0 mwOracle0 kwOracle0
      c1store3 "f1" c1entry3 c1vars "x" "g" rfl rfl (by decide) rfl (by decide)
    exact ((h.1 (by decide)).1).trans (by decide)
  · have h := C1_group_mismatch_is_500 ttestOracle0 anovaOracle0 mwOracle0 kwOracle0
      c1store1 "f1" c1entry1 c1vars "x" "g" rfl rfl (by decide) rfl (by decide)
    exact ((h.2 (by decide)).1).trans (by decide)

/-- Shared helper: the sample standard deviation of a single-element group
is NaN (the `0/0` of numpy's ddof=1 standard deviation). -/
lemma calcStats_single_std_nan (sq : ℚ → ℚ) (x : ℚ) :
    (calcStats sq [x]).std = F.nan := by
  have hm : meanQ [x] = x := by
    simp [meanQ]
  have hs : ssdQ [x] = 0 := by
    simp [ssdQ, hm]
  simp [calcStats, hs, fDiv, fSqrt]

/-- C2, counterexample: on a t-test over two single-row groups each
group's sample standard deviation is NaN, yet the response JSON carries
`"std": 0.0` for both groups — the test runners' `safe_float` replaces
NaN/Infinity with a default value, while only `app.py`'s `safe_float`
yields null. -/
theorem C2_counterexample :
    (calcStats ttestOracle0.sqrtQ [1]).std = F.nan ∧
    (calcStats ttestOracle0.sqrtQ [2]).std = F.nan ∧
    (exceptOk (run_ttest ttestOracle0 c2data "x" "g")).map
        (fun r => r.groups.map (fun p => (p.1, p.2.std))) =
      some [("a", 0), ("b", 0)] ∧
    safe_float_runner F.nan 0 = 0 ∧
    safe_float_app F.nan = none := by
  have h1 : (calcStats ttestOracle0.sqrtQ [1]).std = F.nan :=
    calcStats_single_std_nan _ 1
  have h2 : (calcStats ttestOracle0.sqrtQ [2]).std = F.nan :=
    calcStats_single_std_nan _ 2
  refine ⟨h1, h2, ?_, rfl, rfl⟩
  have hg : pdUnique (dropna (colOf c2data "g")) = [Val.str "a", Val.str "b"] := by
    decide
  have hv1 : toNumericList (selectWhere (colOf c2data "g") (colOf c2data "x")
      (Val.str "a")) = [1] := by decide
  have hv2 : toNumericList (selectWhere (colOf c2data "g") (colOf c2data "x")
      (Val.str "b")) = [2] := by decide
  simp only [run_ttest, hg, List.length_cons, List.length_nil]
  norm_num [List.getD, valToStr, hv1, hv2, exceptOk, safeGroupStats, h1, h2,
    safe_float_runner]

/-- C2, amended: NaN/Infinity normalization to null holds only for the
endpoints in `app.py` (its `safe_float` returns None); the statistical-test
and regression endpoints share a different `safe_float(value, default=0.0)`
that substitutes the call-site default — 0.0, or e.g. 1.0 for VIF and odds
ratios — so NaN/Infinity statistics appear in those responses as that
number, not as null. -/
theorem C2_runner_defaults_not_null (v : F) (d : ℚ)
    (h : v = F.nan ∨ v = F.inf ∨ v = F.ninf) :
    safe_float_app v = none ∧ safe_float_runner v d = d := by
  rcases h with h | h | h <;> subst h <;> exact ⟨rfl, rfl⟩

/-- C2, witness: the amended theorem applied at NaN with the runners'
default 0.0. -/
theorem C2_runner_defaults_not_null_witness :
    safe_float_app F.nan = none ∧ safe_float_runner F.nan 0 = 0 :=
  C2_runner_defaults_not_null F.nan 0 (Or.inl rfl)

/-- C6 (code bug): with 4 retained samples and encoded-outcome mean
`pbar = 1/4` (e.g. encoded outcome [0,0,0,1]), the `llf_null` the code
computes is `4·ln(3/4)` — i.e. `n·ln(1−p̄)`, not the intercept-only
closed form `n·(p̄·ln p̄ + (1−p̄)·ln(1−p̄))` that the claim (and the code's
own "null model with intercept only" comment) requires; the two differ by
exactly `ln 3 > 0`, so the reported McFadden pseudo-R² divides by the
wrong null log-likelihood. -/
theorem C6_llf_null_wrong :
    llf_null_code Real.log 4 (1 / 4) = 4 * Real.log (3 / 4) ∧
    llf_null_code Real.log 4 (1 / 4) -
        llf_null_intercept_only Real.log 4 (1 / 4) = Real.log 3 ∧
    llf_null_code Real.log 4 (1 / 4) ≠ llf_null_intercept_only Real.log 4 (1 / 4) ∧
    mcfadden_r2 Real.log (Real.log (1 / 2)) 4 (1 / 4) ≠
      1 - Real.log (1 / 2) / llf_null_intercept_only Real.log 4 (1 / 4) := by
  have h34 : (1 : ℝ) - 1 / 4 = 3 / 4 := by norm_num
  have hinv : (1 : ℝ) / (1 - 1 / 4) = 4 / 3 := by norm_num
  have l43 : Real.log (4 / 3) = Real.log 4 - Real.log 3 :=
    Real.log_div (by norm_num) (by norm_num)
  have l34 : Real.log (3 / 4) = Real.log 3 - Real.log 4 :=
    Real.log_div (by norm_num) (by norm_num)
  have l14 : Real.log (1 / 4) = -Real.log 4 := by
    rw [one_div, Real.log_inv]
  have hcode : llf_null_code Real.log 4 (1 / 4) = 4 * Real.log (3 / 4) := by
    unfold llf_null_code
    rw [hinv, l43, l34]
    push_cast
    ring
  have hspec : llf_null_intercept_only Real.log 4 (1 / 4) =
      3 * Real.log 3 - 4 * Real.log 4 := by
    unfold llf_null_intercept_only
    rw [h34, l14, l34]
    push_cast
    ring
  have hdiff : llf_null_code Real.log 4 (1 / 4) -
      llf_null_intercept_only Real.log 4 (1 / 4) = Real.log 3 := by
    rw [hcode, hspec, l34]
    ring
  have hne : llf_null_code Real.log 4 (1 / 4) ≠ llf_null_intercept_only Real.log 4 (1 / 4) := by
    intro heq
    have h3 : Real.log 3 = 0 := by
      rw [← hdiff, heq]
      ring
    have : (0 : ℝ) < Real.log 3 := Real.log_pos (by norm_num)
    exact absurd h3 (ne_of_gt this)
  refine ⟨hcode, hdiff, hne, ?_⟩
  have hcode_neg : llf_null_code Real.log 4 (1 / 4) < 0 := by
    rw [hcode]
    exact mul_neg_of_pos_of_neg (by norm_num) (Real.log_neg (by norm_num) (by norm_num))
  have hcode_ne : llf_null_code Real.log 4 (1 / 4) ≠ 0 := ne_of_lt hcode_neg
  have hspec_ne : llf_null_intercept_only Real.log 4 (1 / 4) ≠ 0 := by
    rw [hspec]
    have h1 : 3 * Real.log 3 ≤ 3 * Real.log 4 := by
      have := Real.log_le_log (by norm_num : (0:ℝ) < 3) (by norm_num : (3:ℝ) ≤ 4)
      linarith
    have h2 : 3 * Real.log 4 < 4 * Real.log 4 := by
      have := Real.log_pos (by norm_num : (1:ℝ) < 4)
      linarith
    have : 3 * Real.log 3 - 4 * Real.log 4 < 0 := by linarith
    exact ne_of_lt this
  have hL : Real.log (1 / 2) ≠ 0 :=
    ne_of_lt (Real.log_neg (by norm_num) (by norm_num))
  unfold mcfadden_r2
  rw [if_neg hcode_ne]
  intro h
  have hdivs : Real.log (1 / 2) / llf_null_code Real.log 4 (1 / 4) =
      Real.log (1 / 2) / llf_null_intercept_only Real.log 4 (1 / 4) := by
    linarith
  have heqn : llf_null_code Real.log 4 (1 / 4) =
      llf_null_intercept_only Real.log 4 (1 / 4) := by
    have h2 := (div_eq_div_iff hcode_ne hspec_ne).mp hdivs
    have := mul_left_cancel₀ hL (by linarith : Real.log (1 / 2) *
      llf_null_intercept_only Real.log 4 (1 / 4) =
        Real.log (1 / 2) * llf_null_code Real.log 4 (1 / 4))
    linarith
  exact hne heqn

/-- Shared helper: the sorted order of the 1,…,8 witness column. -/
lemma c7_sort : sortQ [1, 2, 3, 4, 5, 6, 7, 8] = [(1 : ℚ), 2, 3, 4, 5, 6, 7, 8] := by
  norm_num [sortQ, insertionSort, insertSorted]

/-- Shared helper: the 75th percentile of 1,…,8 (pandas linear
interpolation at position 5.25). -/
lemma c7_q75 : quantileQ [1, 2, 3, 4, 5, 6, 7, 8] (3 / 4) = 25 / 4 := by
  have h5 : Int.toNat 5 = 5 := rfl
  simp only [quantileQ, c7_sort]
  norm_num [List.getD, h5]

/-- Shared helper: the 25th percentile of 1,…,8 (position 1.75). -/
lemma c7_q25 : quantileQ [1, 2, 3, 4, 5, 6, 7, 8] (1 / 4) = 11 / 4 := by
  have h1 : Int.toNat 1 = 1 := rfl
  simp only [quantileQ, c7_sort]
  norm_num [List.getD, h1]

/-- Shared helper: the Freedman-Diaconis width of the witness column is
3.5 (iqr = 3.5, cube root of 8 = 2). -/
lemma c7_width : fd_bin_width c7cbrt [1, 2, 3, 4, 5, 6, 7, 8] true = 7 / 2 := by
  have hmax : listMaxD [(1 : ℚ), 2, 3, 4, 5, 6, 7, 8] 0 = 8 := by
    norm_num [listMaxD, max_def]
  have hmin : listMinD [(1 : ℚ), 2, 3, 4, 5, 6, 7, 8] 0 = 1 := by
    norm_num [listMinD, min_def]
  simp only [fd_bin_width, hmax, hmin, c7_q75, c7_q25]
  norm_num [c7cbrt]

/-- Shared helper: maximum of the witness column. -/
lemma c7_max : listMaxD [(1 : ℚ), 2, 3, 4, 5, 6, 7, 8] 0 = 8 := by
  norm_num [listMaxD, max_def]

/-- Shared helper: minimum of the witness column. -/
lemma c7_min : listMinD [(1 : ℚ), 2, 3, 4, 5, 6, 7, 8] 0 = 1 := by
  norm_num [listMinD, min_def]

/-- C7, counterexample: on an integer column with values 1,…,8 the
Freedman-Diaconis width is 3.5 (iqr 3.5, cube root of 8 = 2 — witnessed by
the first conjunct), so the single returned trace carries
`xbins = (start 1, end 8, size 3.5)`: the number of bins this spec yields
over the data range is (8−1)/3.5 = 2, far below the claimed minimum of 10 —
the clamped bin count is computed but never placed in the trace. -/
theorem C7_counterexample :
    c7cbrt 8 ^ 3 = 8 ∧
    (prepare_histogram_data c7cbrt c7df "x" none true).data =
      [⟨[1, 2, 3, 4, 5, 6, 7, 8], "x", none, ⟨1, 8, 7 / 2⟩⟩] ∧
    ((8 : ℚ) - 1) / (7 / 2) = 2 ∧
    ¬ ((10 : ℚ) ≤ ((8 : ℚ) - 1) / (7 / 2)) := by
  refine ⟨by norm_num [c7cbrt], ?_, by norm_num, by norm_num⟩
  have hvals : histVals c7df "x" = [1, 2, 3, 4, 5, 6, 7, 8] := by decide
  simp only [prepare_histogram_data, hvals]
  norm_num [c7_min, c7_max, c7_width]

/-- C7, amended: for every histogram request over a numeric column with at
least one non-missing value, every returned trace carries the same bin
spec — start = the column minimum, end = the column maximum, size = the
Freedman-Diaconis-based `bin_width` — shared across all group traces; the
10-to-100 clamp is applied only to a bin-count variable that the source
computes and never uses, so the bin count implied by the trace's spec is
not constrained to 10–100. -/
theorem C7_traces_share_unclamped_fd_bins (cbrt : ℚ → ℚ) (df : DFrame)
    (numeric_var : String) (group_var : Option String) (intDtype : Bool)
    (h : histVals df numeric_var ≠ []) :
    ((prepare_histogram_data cbrt df numeric_var group_var intDtype).data.all
      (fun t => t.xbins = ⟨listMinD (histVals df numeric_var) 0,
        listMaxD (histVals df numeric_var) 0,
        fd_bin_width cbrt (histVals df numeric_var) intDtype⟩)) = true ∧
    10 ≤ clamped_nbins cbrt (histVals df numeric_var) intDtype ∧
    clamped_nbins cbrt (histVals df numeric_var) intDtype ≤ 100 := by
  refine ⟨?_, ?_, ?_⟩
  · have hlen : ¬ ((histVals df numeric_var).length = 0) := by
      simpa [List.length_eq_zero] using h
    simp only [prepare_histogram_data, hlen, if_false]
    cases group_var with
    | none => simp
    | some gv => simp [List.all_eq_true]
  · simp only [clamped_nbins]
    omega
  · simp only [clamped_nbins]
    omega

/-- C7, witness: the amended theorem applied to the grouped witness table
(two groups over the 1,…,8 integer column). -/
theorem C7_traces_share_unclamped_fd_bins_witness :
    ((prepare_histogram_data c7cbrt c7gdf "x" (some "g") true).data.all
      (fun t => t.xbins = ⟨listMinD (histVals c7gdf "x") 0,
        listMaxD (histVals c7gdf "x") 0,
        fd_bin_width c7cbrt (histVals c7gdf "x") true⟩)) = true ∧
    10 ≤ clamped_nbins c7cbrt (histVals c7gdf "x") true ∧
    clamped_nbins c7cbrt (histVals c7gdf "x") true ≤ 100 :=
  C7_traces_share_unclamped_fd_bins c7cbrt c7gdf "x" (some "g") true (by decide)

/-- C9 (confirmed): no request handler other than upload/load-sample
writes the process-wide table store: the summary endpoints, the
variable-analysis and analysis endpoints, every statistical-test route
(all ten are instances of `statTestRoute` — their runners receive the
record copy made by `load_file_data`, not the store), both regression
routes (instances of `regression_route`), and the visualization endpoint
all return the store they received, on every path (found, not-found and
error paths alike).  Store mutation exists in the embedding — see
`upload_register`, the write done by upload/load-sample — these handlers
just never perform it. -/
theorem C9_handlers_preserve_store :
    (∀ (o : StatsOracle) (parse : Val → Option ℤ) (iso : ℤ → String) (store : Store)
        (fid : String) (req : SummaryStatsRequest),
        (get_summary_statistics o parse iso store fid req).1 = store) ∧
    (∀ (o : StatsOracle) (parse : Val → Option ℤ) (iso : ℤ → String) (store : Store)
        (fid vn : String) (vt : Option String),
        (get_single_variable_summary o parse iso store fid vn vt).1 = store) ∧
    (∀ (store : Store) (fid : String), (analyze_variables store fid).1 = store) ∧
    (∀ (o : AnalyzeOracle) (store : Store) (fid : Option String) (ty : String)
        (cols : List String), (analyze_data o store fid ty cols).1 = store) ∧
    (∀ (α : Type) (store : Store) (fid : String) (rvars : List (String × String))
        (k1 k2 msg : String) (runner : TestData → String → String → Except String α),
        (statTestRoute store fid rvars k1 k2 msg runner).1 = store) ∧
    (∀ (α : Type) (store : Store) (fid : String) (dep : Option String)
        (indep : List String) (runner : TestData → String → List String → Except String α),
        (regression_route store fid dep indep runner).1 = store) ∧
    (∀ (vo : VisualizeOracle) (intDtype : Bool) (store : Store) (fid pt : String)
        (v : VisVars), (get_visualization_data vo intDtype store fid pt v).1 = store) := by
  refine ⟨?_, ?_, ?_, ?_, ?_, ?_, ?_⟩
  · intro o parse iso store fid req
    unfold get_summary_statistics
    repeat' split
    all_goals rfl
  · intro o parse iso store fid vn vt
    unfold get_single_variable_summary
    repeat' split
    all_goals rfl
  · intro store fid
    unfold analyze_variables
    repeat' split
    all_goals rfl
  · intro o store fid ty cols
    unfold analyze_data
    repeat' split
    all_goals try rfl
    all_goals (dsimp only; split <;> rfl)
  · intro α store fid rvars k1 k2 msg runner
    unfold statTestRoute
    repeat' split
    all_goals rfl
  · intro α store fid dep indep runner
    unfold regression_route
    repeat' split
    all_goals rfl
  · intro vo intDtype store fid pt v
    unfold get_visualization_data
    repeat' split
    all_goals rfl
